import Mathlib

/-!
Verification development for the billing backend (Party / Item / Sale /
Purchase / Payment ledger core).

Modelling conventions:
* JavaScript numbers are modelled as exact rationals (`ℚ`); all claims under
  study are algebraic identities insensitive to floating-point rounding.
* Document ids (Mongo ObjectIds) are modelled as `Nat`; a `Store` carries a
  `nextId` counter supplying fresh ids.
* A route handler is a function `Store → args → Store × Except ApiError α`:
  the returned store reflects all writes performed before a thrown error was
  caught (the code favours availability: compensation failures are logged and
  swallowed, so partial state is reachable and the model keeps it).
* Mongoose runs schema validation before the user pre-save hook, so the
  validators see the document as built by the route (for example with the
  caller-supplied line totals), and the pre-save hook then recomputes totals.
-/

namespace Billing

/-- Line item of a Sale or Purchase (`saleItemSchema` / `purchaseItemSchema`):
`{id, itemName, quantity (kg), rate, total}`. The two subdocument schemas are
field-for-field identical, so one Lean structure serves both. -/
structure SaleItem where
  id : Nat
  itemName : String
  quantity : ℚ
  rate : ℚ
  total : ℚ
deriving DecidableEq, Repr

/-- Item document (`itemSchema`, src/models/Item.js): the fields the ledger
core reads. `category`, prices, `asOfDate` and `lowStockAlert` are carried
only where a claim needs them; stock is in bags (1 bag = 30 kg). -/
structure Item where
  id : Nat
  productName : String
  category : String
  purchasePrice : ℚ
  salePrice : ℚ
  openingStock : ℚ
  lowStockAlert : ℚ
  isUniversal : Bool
deriving DecidableEq, Repr

/-- Party document (`partySchema`, src/unnamed/part_002). -/
structure Party where
  id : Nat
  name : String
  phoneNumber : String
  balance : ℚ
deriving DecidableEq, Repr

/-- Sale document (`saleSchema`, src/unnamed/part_004). `pdfUri` and the
timestamps play no role in any claim and are omitted. -/
structure Sale where
  id : Nat
  invoiceNo : String
  partyName : String
  phoneNumber : String
  items : List SaleItem
  totalAmount : ℚ
  date : String
  partyId : Option Nat
deriving DecidableEq, Repr

/-- Purchase document (`purchaseSchema`, src/unnamed/part_001). -/
structure Purchase where
  id : Nat
  billNo : String
  partyName : String
  phoneNumber : String
  items : List SaleItem
  totalAmount : ℚ
  date : String
  partyId : Option Nat
deriving DecidableEq, Repr

/-- Payment document (`paymentSchema`, second document of src/models/Item.js).
The source field `type` is rendered `ptype` here. -/
structure Payment where
  id : Nat
  paymentNo : String
  ptype : String
  partyName : String
  phoneNumber : String
  amount : ℚ
  totalAmount : ℚ
  date : String
  partyId : Option Nat
deriving DecidableEq, Repr

/-- The persistent document store (the Ledger Store collaborator). -/
structure Store where
  parties : List Party
  items : List Item
  sales : List Sale
  purchases : List Purchase
  payments : List Payment
  nextId : Nat
deriving DecidableEq, Repr

/-- Outcome taxonomy of the route handlers (spec section 7): 400-class
validation failures, 404 not-found, duplicate-identifier conflicts (sent as
HTTP 400 by the code, classified Conflict by the spec), and 500-class
server errors. -/
inductive ApiError where
  | invalidInput : ApiError
  | notFound : ApiError
  | conflict : ApiError
  | server : ApiError
deriving DecidableEq, Repr

/-! ## Store primitives (document CRUD) -/

/-- `Model.findById` for parties. -/
def findParty (s : Store) (pid : Nat) : Option Party :=
  s.parties.find? (fun p => p.id == pid)

/-- Persisting a mutated Party document: replace by id. -/
def saveParty (s : Store) (p : Party) : Store :=
  { s with parties := s.parties.map (fun q => if q.id == p.id then p else q) }

/-- `Model.findById` for items. -/
def findItem (s : Store) (iid : Nat) : Option Item :=
  s.items.find? (fun i => i.id == iid)

/-- Persisting a mutated Item document: replace by id. -/
def saveItem (s : Store) (i : Item) : Store :=
  { s with items := s.items.map (fun q => if q.id == i.id then i else q) }

/-- `Item.findOne({isUniversal: true, productName: ...})`, the universal
Bardana packaging item lookup used by every stock pass. -/
def findBardana (s : Store) : Option Item :=
  s.items.find? (fun i => i.isUniversal && i.productName == ("Bardana"))

/-- `Sale.findById`. -/
def findSale (s : Store) (sid : Nat) : Option Sale :=
  s.sales.find? (fun x => x.id == sid)

/-- `Purchase.findById`. -/
def findPurchase (s : Store) (pid : Nat) : Option Purchase :=
  s.purchases.find? (fun x => x.id == pid)

/-- `Payment.findById`. -/
def findPayment (s : Store) (pid : Nat) : Option Payment :=
  s.payments.find? (fun x => x.id == pid)

/-! ## String validators (middleware/validation.js and schema validators) -/

/-- JS `String.prototype.trim`: drop leading and trailing whitespace.
(Defined on the character list so that it reduces definitionally.) -/
def trimStr (v : String) : String :=
  String.mk (((v.toList.dropWhile Char.isWhitespace).reverse.dropWhile Char.isWhitespace).reverse)

/-- Split a character list at every slash, keeping empty segments, as the
JS date regex groups do. -/
def splitSlash : List Char → List (List Char)
  | [] => [[]]
  | c :: cs =>
      if c = '/' then [] :: splitSlash cs
      else
        match splitSlash cs with
        | [] => [[c]]
        | g :: gs => (c :: g) :: gs

/-- JS `String.prototype.toLowerCase` restricted to ASCII, for the
case-insensitive product-name lookups. -/
def lowerStr (v : String) : String :=
  String.mk (v.toList.map Char.toLower)

/-- Numeric value of a digit string, for JS `parseInt` on a digit prefix. -/
def digitsToNat (l : List Char) : Nat :=
  l.foldl (fun n c => n * 10 + (c.toNat - 48)) 0

/-- Strip every character that is not a digit or a plus sign, as in the JS
`v.replace` with the non-digit pattern used before phone checks. -/
def cleanPhone (v : String) : String :=
  String.mk (v.toList.filter (fun c => c.isDigit || c = '+'))

/-- The middleware and Payment-schema phone rule: after cleaning, a plus,
a first digit 1-9, then 9 to 14 further digits. -/
def strictPhoneValid (v : String) : Bool :=
  match (cleanPhone v).toList with
  | '+' :: d :: rest =>
      d.isDigit && d != '0' && rest.all Char.isDigit &&
        decide (9 ≤ rest.length) && decide (rest.length ≤ 14)
  | _ => false

/-- The Party/Sale/Purchase schema phone rule: whitespace stripped, an
optional plus, a first digit 1-9, then 1 to 14 further digits. -/
def docPhoneValid (v : String) : Bool :=
  match (String.mk (v.toList.filter (fun c => !c.isWhitespace))).toList with
  | '+' :: d :: rest =>
      d.isDigit && d != '0' && rest.all Char.isDigit &&
        decide (1 ≤ rest.length) && decide (rest.length ≤ 14)
  | d :: rest =>
      d.isDigit && d != '0' && rest.all Char.isDigit &&
        decide (1 ≤ rest.length) && decide (rest.length ≤ 14)
  | _ => false

/-- Party pre-save sanitisation (part_002 lines 56-63): keep digits and plus,
prefix +91 when no leading plus. The same sanitisation is used by the Sale,
Purchase and Payment pre-save hooks. -/
def sanitizePhone (v : String) : String :=
  let cleaned := cleanPhone v
  match cleaned.toList with
  | '+' :: _ => cleaned
  | _ => ("+91") ++ cleaned

/-- `validateBillNumber` / `validateInvoiceNumber` (validation.js): trimmed,
1-50 characters, alphanumeric plus hyphen and underscore. -/
def validateBillNumber (billNo : String) : Bool :=
  let t := trimStr billNo
  decide (1 ≤ t.length) && decide (t.length ≤ 50) &&
    t.toList.all (fun c => c.isAlphanum || c = '-' || c = '_')

/-- The MM/DD/YYYY date shape used across the schemas and middleware. -/
def validateDateFormat (v : String) : Bool :=
  match splitSlash v.toList with
  | [m, d, y] =>
      decide (1 ≤ m.length) && decide (m.length ≤ 2) && m.all Char.isDigit &&
      decide (1 ≤ d.length) && decide (d.length ≤ 2) && d.all Char.isDigit &&
      decide (y.length = 4) && y.all Char.isDigit
  | _ => false

/-! ## Party model statics (src/unnamed/part_002) -/

/-- Party pre-save hook applied whenever a Party document is persisted. -/
def presaveParty (p : Party) : Party :=
  { p with phoneNumber := sanitizePhone p.phoneNumber }

/-- Schema validation of a Party document (name required and at most 100
characters, phone in document format). Balance has no validators
(negative balances are explicitly allowed, part_002 line 124). -/
def validPartyDoc (p : Party) : Bool :=
  p.name != ("") && decide (p.name.length ≤ 100) && docPhoneValid p.phoneNumber

/-- `partySchema.statics.updateBalance` (part_002 lines 108-131): look the
party up by id (throwing NotFound when absent), apply `add` / `subtract` /
`set` to `balance` — any other operation string falls through every branch
and the document is re-saved unchanged — then persist. No clamping. -/
def updateBalance (s : Store) (partyId : Nat) (amount : ℚ) (operation : String) :
    Except ApiError (Store × Party) :=
  match findParty s partyId with
  | none => .error .notFound
  | some party =>
      let party :=
        if operation = ("add") then { party with balance := party.balance + amount }
        else if operation = ("subtract") then { party with balance := party.balance - amount }
        else if operation = ("set") then { party with balance := amount }
        else party
      let party := presaveParty party
      .ok (saveParty s party, party)

/-- The new Party document `partySchema.statics.findOrCreate` (part_002
lines 88-106) builds when the name-and-phone lookup misses; a validation
failure on it propagates as a 400-class error. -/
def newPartyDoc (s : Store) (name phone : String) : Party :=
  { id := s.nextId, name := name, phoneNumber := phone, balance := 0 }

/-- `partySchema.statics.findOrCreate`, continued: look up by name and
phone; create (validate, sanitise, append with a fresh id) when absent. -/
def findOrCreateParty (s : Store) (name phone : String) :
    Except ApiError (Store × Party) :=
  match s.parties.find? (fun p => p.name == name && p.phoneNumber == phone) with
  | some p => .ok (s, p)
  | none =>
      if validPartyDoc (newPartyDoc s name phone) then
        .ok ({ s with
                parties := s.parties ++ [presaveParty (newPartyDoc s name phone)],
                nextId := s.nextId + 1 },
          presaveParty (newPartyDoc s name phone))
      else .error .invalidInput

/-! ## Sale model (src/unnamed/part_004) -/

/-- The pre-save recomputation of per-line totals: each line total is
overwritten with quantity * rate. -/
def recalcItems (items : List SaleItem) : List SaleItem :=
  items.map (fun it => { it with total := it.quantity * it.rate })

/-- Sum of quantity * rate over the line items, the value the pre-save hook
assigns to `totalAmount`. -/
def itemsGrandTotal (items : List SaleItem) : ℚ :=
  (items.map (fun it => it.quantity * it.rate)).sum

/-- Sum of line quantities in kilograms, used by every Bardana pass. -/
def totalKg (lines : List SaleItem) : ℚ :=
  (lines.map (fun it => it.quantity)).sum

/-- `saleSchema.pre` save hook (part_004 lines 99-119), also the identical
`purchaseSchema` hook (part_001): sanitise the phone number and, when the
item list is nonempty, overwrite every line total with quantity * rate and
`totalAmount` with their sum. -/
def presaveSaleFields (phone : String) (items : List SaleItem) (totalAmount : ℚ) :
    String × List SaleItem × ℚ :=
  let phone := sanitizePhone phone
  if items.isEmpty then (phone, items, totalAmount)
  else (phone, recalcItems items, itemsGrandTotal items)

/-- Schema validation of the line items (each quantity, rate and total has a
`min 0` validator and is required). -/
def validDocItems (items : List SaleItem) : Bool :=
  items.all fun it =>
    it.itemName != ("") && decide (0 ≤ it.quantity) && decide (0 ≤ it.rate) &&
      decide (0 ≤ it.total)

/-- Schema validation shared by Sale and Purchase documents, run (before the
pre-save hook) on the document as assembled by the route: identifier, party
name, phone, nonempty valid items, nonnegative total, MM/DD/YYYY date. -/
def validTxnDoc (identifier partyName phoneNumber : String) (items : List SaleItem)
    (totalAmount : ℚ) (date : String) : Bool :=
  identifier != ("") && partyName != ("") && decide (partyName.length ≤ 100) &&
    docPhoneValid phoneNumber && !items.isEmpty && validDocItems items &&
    decide (0 ≤ totalAmount) && validateDateFormat date

/-- `sale.save()` for a new document: validate, run the pre-save hook, append. -/
def insertSale (s : Store) (sale : Sale) : Store × Except ApiError Sale :=
  if validTxnDoc sale.invoiceNo sale.partyName sale.phoneNumber sale.items
      sale.totalAmount sale.date then
    let (phone, items, total) := presaveSaleFields sale.phoneNumber sale.items sale.totalAmount
    let sale := { sale with phoneNumber := phone, items := items, totalAmount := total }
    ({ s with sales := s.sales ++ [sale] }, .ok sale)
  else (s, .error .invalidInput)

/-- `sale.save()` for an existing document: validate, run the pre-save hook,
replace by id. -/
def resaveSale (s : Store) (sale : Sale) : Store × Except ApiError Sale :=
  if validTxnDoc sale.invoiceNo sale.partyName sale.phoneNumber sale.items
      sale.totalAmount sale.date then
    let (phone, items, total) := presaveSaleFields sale.phoneNumber sale.items sale.totalAmount
    let sale := { sale with phoneNumber := phone, items := items, totalAmount := total }
    ({ s with sales := s.sales.map (fun x => if x.id == sale.id then sale else x) }, .ok sale)
  else (s, .error .invalidInput)

/-- Integer prefix of a string as JS `parseInt` reads it (leading digits;
none means NaN). -/
def parseLeadingInt (v : String) : Option Nat :=
  let ds := v.toList.takeWhile Char.isDigit
  if ds.isEmpty then none else some (digitsToNat ds)

/-- The lexicographically last invoice number among stored sales
(`findOne().sort` on invoiceNo descending). -/
def lastInvoiceNo (s : Store) : Option String :=
  s.sales.foldl
    (fun acc sale =>
      match acc with
      | none => some sale.invoiceNo
      | some v => if v < sale.invoiceNo then some sale.invoiceNo else some v)
    none

/-- `saleSchema.statics.generateNextInvoiceNumber` (part_004 lines 139-157):
take the lexicographically last invoice number, parse it as an integer
(defaulting to the string 1 when absent or non-numeric) and increment. -/
def generateNextInvoiceNumber (s : Store) : String :=
  match lastInvoiceNo s with
  | none => ("1")
  | some v =>
      match parseLeadingInt v with
      | none => ("1")
      | some n => toString (n + 1)

/-! ## Sale routes (src/unnamed/part_000, lines 485-905) -/

/-- Body of POST /api/sales. A caller may supply `totalAmount` and per-line
totals; the route never reads the former and the pre-save hook overwrites
the latter. -/
structure SaleRequest where
  partyName : String
  phoneNumber : String
  items : List SaleItem
  date : String
  totalAmount : ℚ
deriving DecidableEq, Repr

/-- One step of the POST /api/sales stock loop (lines 623-642): look the
line item up by id (silently skipping unknown ids), subtract quantity/30
bags and clamp a negative result to 0. The identical loop body appears in
PUT /api/sales when applying the new item list (lines 748-764). -/
def saleCreateStockStep (s : Store) (line : SaleItem) : Store :=
  match findItem s line.id with
  | none => s
  | some item =>
      let st := item.openingStock - line.quantity / 30
      let st := if st < 0 then 0 else st
      saveItem s { item with openingStock := st }

/-- The Bardana section of POST /api/sales (lines 644-666): subtract the
summed kilograms / 30 from Bardana, clamping at 0; absence of Bardana is
non-fatal. -/
def saleCreateBardana (s : Store) (lines : List SaleItem) : Store :=
  match findBardana s with
  | none => s
  | some b =>
      let st := b.openingStock - totalKg lines / 30
      let st := if st < 0 then 0 else st
      saveItem s { b with openingStock := st }

/-- One step of the stock-restoring loops of PUT and DELETE /api/sales
(lines 734-745 and 804-815): add quantity/30 bags back, with no clamp. -/
def saleRestoreStockStep (s : Store) (line : SaleItem) : Store :=
  match findItem s line.id with
  | none => s
  | some item => saveItem s { item with openingStock := item.openingStock + line.quantity / 30 }

/-- The Bardana section of DELETE /api/sales (lines 817-833): add the summed
kilograms / 30 back, with no clamp. -/
def saleRestoreBardana (s : Store) (lines : List SaleItem) : Store :=
  match findBardana s with
  | none => s
  | some b => saveItem s { b with openingStock := b.openingStock + totalKg lines / 30 }

/-- The Sale document assembled by POST /api/sales (part_000 lines
596-615): generated invoice number, caller fields, a zero total that the
pre-save hook overwrites, and the resolved party link. -/
def newSaleDoc (s0 s1 : Store) (req : SaleRequest) (partyId : Nat) : Sale :=
  { id := s1.nextId, invoiceNo := generateNextInvoiceNumber s0, partyName := req.partyName,
    phoneNumber := req.phoneNumber, items := req.items, totalAmount := 0,
    date := req.date, partyId := some partyId }

/-- POST /api/sales (part_000 lines 571-690): presence checks, invoice
number generation, find-or-create of the Party, persist (totals recomputed
by the pre-save hook), add `totalAmount` to the party balance, run the
per-item stock loop, then the Bardana pass. An error thrown by the balance
update after the sale was persisted surfaces as a 500 with the sale kept. -/
def createSale (s0 : Store) (req : SaleRequest) : Store × Except ApiError Sale :=
  if req.partyName = ("") || req.phoneNumber = ("") || req.date = ("") then
    (s0, .error .invalidInput)
  else if req.items.isEmpty then (s0, .error .invalidInput)
  else
    match findOrCreateParty s0 req.partyName req.phoneNumber with
    | .error e => (s0, .error e)
    | .ok (s1, party) =>
        match insertSale { s1 with nextId := s1.nextId + 1 } (newSaleDoc s0 s1 req party.id) with
        | (_, .error e) => (s1, .error e)
        | (s2, .ok sale) =>
            match updateBalance s2 party.id sale.totalAmount ("add") with
            | .error _ => (s2, .error .server)
            | .ok (s3, _) =>
                (saleCreateBardana (req.items.foldl saleCreateStockStep s3) req.items, .ok sale)

/-- Body of PUT /api/sales: every field optional; a JS falsy (empty) string
leaves the field unchanged. -/
structure SaleUpdateRequest where
  partyName : Option String
  phoneNumber : Option String
  items : Option (List SaleItem)
  date : Option String
deriving DecidableEq, Repr

/-- Apply a truthy optional string field, as `if (field) doc.field = field`. -/
def applyOptStr (cur : String) (v : Option String) : String :=
  match v with
  | none => cur
  | some x => if x = ("") then cur else x

/-- The field changes of PUT /api/sales (part_000 lines 716-721): truthy
strings overwrite, a supplied item list replaces the stored one. -/
def saleWithUpdates (sale : Sale) (req : SaleUpdateRequest) : Sale :=
  { sale with
    partyName := applyOptStr sale.partyName req.partyName,
    phoneNumber := applyOptStr sale.phoneNumber req.phoneNumber,
    items := match req.items with
      | none => sale.items
      | some its => its,
    date := applyOptStr sale.date req.date }

/-- The balance step of PUT /api/sales (part_000 lines 725-729): when a
party is linked and the total changed, add the difference. -/
def saleUpdateBalanceStep (s1 : Store) (originalTotalAmount : ℚ) (sale : Sale) :
    Except ApiError Store :=
  match sale.partyId with
  | some pid =>
      if originalTotalAmount ≠ sale.totalAmount then
        match updateBalance s1 pid (sale.totalAmount - originalTotalAmount) ("add") with
        | .error _ => .error .server
        | .ok (t, _) => .ok t
      else .ok s1
  | none => .ok s1

/-- The stock step of PUT /api/sales (part_000 lines 731-765): when the
request carried an item list structurally different from the original,
restore the original per-item stock (unclamped add) and apply the new
per-item stock (clamped subtract). Bardana is not touched. -/
def saleUpdateStockPass (s2 : Store) (originalItems : List SaleItem)
    (reqItems : Option (List SaleItem)) : Store :=
  match reqItems with
  | some its =>
      if its ≠ originalItems then
        its.foldl saleCreateStockStep (originalItems.foldl saleRestoreStockStep s2)
      else s2
  | none => s2

/-- PUT /api/sales (part_000 lines 693-789): load, capture original total
and items, apply field changes, re-save (recomputing totals), run the
balance step, then the stock step. -/
def updateSale (s0 : Store) (sid : Nat) (req : SaleUpdateRequest) :
    Store × Except ApiError Sale :=
  match findSale s0 sid with
  | none => (s0, .error .notFound)
  | some sale0 =>
      match resaveSale s0 (saleWithUpdates sale0 req) with
      | (_, .error e) => (s0, .error e)
      | (s1, .ok sale) =>
          match saleUpdateBalanceStep s1 sale0.totalAmount sale with
          | .error e => (s1, .error e)
          | .ok s2 => (saleUpdateStockPass s2 sale0.items req.items, .ok sale)

/-- The balance reversal of DELETE /api/sales (part_000 lines 835-838):
subtract the full stored `totalAmount` from the linked party. An error here
is uncaught, so the route responds 500 with the stock already restored and
the document kept. -/
def saleDeleteBalanceStep (s2 : Store) (sale : Sale) : Store × Except ApiError Unit :=
  match sale.partyId with
  | some pid =>
      match updateBalance s2 pid sale.totalAmount ("subtract") with
      | .error _ => (s2, .error .server)
      | .ok (t, _) => (t, .ok ())
  | none => (s2, .ok ())

/-- DELETE /api/sales (part_000 lines 792-853): restore each line's stock
(unclamped add), restore Bardana by the summed kilograms, run the balance
reversal, then remove the document. -/
def deleteSale (s0 : Store) (sid : Nat) : Store × Except ApiError Unit :=
  match findSale s0 sid with
  | none => (s0, .error .notFound)
  | some sale =>
      match saleDeleteBalanceStep
          (saleRestoreBardana (sale.items.foldl saleRestoreStockStep s0) sale.items) sale with
      | (s2, .error e) => (s2, .error e)
      | (s3, .ok _) => ({ s3 with sales := s3.sales.filter (fun x => x.id != sid) }, .ok ())

/-! ## Purchase model and routes (src/unnamed/part_001, src/routes/purchase.js) -/

/-- `purchase.save()` for a new document. -/
def insertPurchase (s : Store) (purchase : Purchase) : Store × Except ApiError Purchase :=
  if validTxnDoc purchase.billNo purchase.partyName purchase.phoneNumber purchase.items
      purchase.totalAmount purchase.date then
    let (phone, items, total) :=
      presaveSaleFields purchase.phoneNumber purchase.items purchase.totalAmount
    let purchase := { purchase with phoneNumber := phone, items := items, totalAmount := total }
    ({ s with purchases := s.purchases ++ [purchase] }, .ok purchase)
  else (s, .error .invalidInput)

/-- `purchase.save()` for an existing document: replace by id. -/
def resavePurchase (s : Store) (purchase : Purchase) : Store × Except ApiError Purchase :=
  if validTxnDoc purchase.billNo purchase.partyName purchase.phoneNumber purchase.items
      purchase.totalAmount purchase.date then
    let (phone, items, total) :=
      presaveSaleFields purchase.phoneNumber purchase.items purchase.totalAmount
    let purchase := { purchase with phoneNumber := phone, items := items, totalAmount := total }
    ({ s with purchases := s.purchases.map (fun x => if x.id == purchase.id then purchase else x) },
      .ok purchase)
  else (s, .error .invalidInput)

/-- Modelled from the spec: `Purchase.isBillNumberExists` is invoked by the
purchase routes but its definition is not among the provided sources (the
supplied Purchase model file lacks it). Per the spec, creation is rejected
when the caller-supplied identifier already exists, so the check is modelled
as existence of a stored Purchase with that bill number. -/
def isBillNumberExists (s : Store) (billNo : String) : Bool :=
  s.purchases.any (fun p => p.billNo == billNo)

/-- Body of POST /api/purchases. As with sales, `totalAmount` and per-line
totals may be supplied but are recomputed server-side. -/
structure PurchaseRequest where
  billNo : String
  partyName : String
  phoneNumber : String
  items : List SaleItem
  date : String
  totalAmount : ℚ
deriving DecidableEq, Repr

/-- `validatePurchaseRequest` middleware (validation.js lines 116-197):
presence, bill-number shape, strict phone, nonempty items with positive
quantity and rate, date shape. -/
def validPurchaseRequest (req : PurchaseRequest) : Bool :=
  req.billNo != ("") && req.partyName != ("") && req.phoneNumber != ("") &&
    req.date != ("") && validateBillNumber req.billNo &&
    strictPhoneValid req.phoneNumber && !req.items.isEmpty &&
    (req.items.all fun it =>
      it.itemName != ("") && decide (0 < it.quantity) && decide (0 < it.rate)) &&
    validateDateFormat req.date

/-- One step of the POST /api/purchases stock loop (purchase.js lines
132-146): add quantity/30 bags, no clamp. The identical body is the
apply-new-items loop of PUT /api/purchases (lines 267-278). -/
def purchaseCreateStockStep (s : Store) (line : SaleItem) : Store :=
  match findItem s line.id with
  | none => s
  | some item => saveItem s { item with openingStock := item.openingStock + line.quantity / 30 }

/-- The Bardana section of POST /api/purchases (lines 148-166): add the
summed kilograms / 30, no clamp. -/
def purchaseCreateBardana (s : Store) (lines : List SaleItem) : Store :=
  match findBardana s with
  | none => s
  | some b => saveItem s { b with openingStock := b.openingStock + totalKg lines / 30 }

/-- One step of the stock-reversing loops of PUT and DELETE /api/purchases
(lines 247-264, 355-372 and 432-449): subtract quantity/30 bags and clamp a
negative result to 0. -/
def purchaseReverseStockStep (s : Store) (line : SaleItem) : Store :=
  match findItem s line.id with
  | none => s
  | some item =>
      let st := item.openingStock - line.quantity / 30
      let st := if st < 0 then 0 else st
      saveItem s { item with openingStock := st }

/-- The Bardana section of DELETE /api/purchases (lines 451-471, also the
bulk variant): subtract the summed kilograms / 30, clamped at 0. -/
def purchaseReverseBardana (s : Store) (lines : List SaleItem) : Store :=
  match findBardana s with
  | none => s
  | some b =>
      let st := b.openingStock - totalKg lines / 30
      let st := if st < 0 then 0 else st
      saveItem s { b with openingStock := st }

/-- The Bardana reconciliation of PUT /api/purchases (lines 280-303): apply
the net kilogram difference between the new and the original item lists,
clamping a negative result to 0. -/
def purchaseUpdateBardana (s : Store) (originalItems newItems : List SaleItem) : Store :=
  match findBardana s with
  | none => s
  | some b =>
      let st := b.openingStock + (totalKg newItems - totalKg originalItems) / 30
      let st := if st < 0 then 0 else st
      saveItem s { b with openingStock := st }

/-- The Purchase document assembled by POST /api/purchases (purchase.js
lines 114-124): trimmed bill number, sanitised phone, a zero total that the
pre-save hook overwrites, and the resolved party link. -/
def newPurchaseDoc (s1 : Store) (req : PurchaseRequest) (partyId : Nat) : Purchase :=
  { id := s1.nextId, billNo := trimStr req.billNo, partyName := req.partyName,
    phoneNumber := sanitizePhone req.phoneNumber, items := req.items,
    totalAmount := 0, date := req.date, partyId := some partyId }

/-- POST /api/purchases (purchase.js lines 88-190): middleware validation,
duplicate bill-number check (Conflict, before any write), find-or-create of
the Party, persist, subtract `totalAmount` from the party balance, add
stock per line, then the Bardana pass. -/
def createPurchase (s0 : Store) (req : PurchaseRequest) : Store × Except ApiError Purchase :=
  if !validPurchaseRequest req then (s0, .error .invalidInput)
  else if isBillNumberExists s0 (trimStr req.billNo) then (s0, .error .conflict)
  else
    match findOrCreateParty s0 req.partyName (sanitizePhone req.phoneNumber) with
    | .error e => (s0, .error e)
    | .ok (s1, party) =>
        match insertPurchase { s1 with nextId := s1.nextId + 1 } (newPurchaseDoc s1 req party.id) with
        | (_, .error e) => (s1, .error e)
        | (s2, .ok purchase) =>
            match updateBalance s2 party.id purchase.totalAmount ("subtract") with
            | .error _ => (s2, .error .server)
            | .ok (s3, _) =>
                (purchaseCreateBardana (req.items.foldl purchaseCreateStockStep s3) req.items,
                  .ok purchase)

/-- Body of PUT /api/purchases. -/
structure PurchaseUpdateRequest where
  billNo : Option String
  partyName : Option String
  phoneNumber : Option String
  items : Option (List SaleItem)
  date : Option String
deriving DecidableEq, Repr

/-- The duplicate bill-number re-check of PUT /api/purchases (lines
214-222). -/
def purchaseDupCheck (s0 : Store) (purchase : Purchase) (req : PurchaseUpdateRequest) : Bool :=
  match req.billNo with
  | some b => b != ("") && b != purchase.billNo && isBillNumberExists s0 b
  | none => false

/-- The field changes of PUT /api/purchases (lines 228-234). -/
def purchaseWithUpdates (purchase : Purchase) (req : PurchaseUpdateRequest) : Purchase :=
  { purchase with
    billNo := applyOptStr purchase.billNo req.billNo,
    partyName := applyOptStr purchase.partyName req.partyName,
    phoneNumber := applyOptStr purchase.phoneNumber req.phoneNumber,
    items := match req.items with
      | none => purchase.items
      | some its => its,
    date := applyOptStr purchase.date req.date }

/-- The balance step of PUT /api/purchases (lines 238-242): subtract the
total difference when it changed. -/
def purchaseUpdateBalanceStep (s1 : Store) (originalTotalAmount : ℚ) (purchase : Purchase) :
    Except ApiError Store :=
  match purchase.partyId with
  | some partyId =>
      if originalTotalAmount ≠ purchase.totalAmount then
        match updateBalance s1 partyId (purchase.totalAmount - originalTotalAmount)
            ("subtract") with
        | .error _ => .error .server
        | .ok (t, _) => .ok t
      else .ok s1
  | none => .ok s1

/-- The stock step of PUT /api/purchases (lines 244-304): when the item
list changed structurally, reverse the original per-item effect (clamped
subtract), apply the new per-item effect (unclamped add), then reconcile
Bardana once by the net kilogram difference. -/
def purchaseUpdateStockPass (s2 : Store) (originalItems : List SaleItem)
    (reqItems : Option (List SaleItem)) : Store :=
  match reqItems with
  | some its =>
      if its ≠ originalItems then
        purchaseUpdateBardana
          (its.foldl purchaseCreateStockStep (originalItems.foldl purchaseReverseStockStep s2))
          originalItems its
      else s2
  | none => s2

/-- PUT /api/purchases (purchase.js lines 193-328): load, re-check
uniqueness on a changed bill number, capture originals, apply changes,
re-save, run the balance step, then the stock step. -/
def updatePurchase (s0 : Store) (pid : Nat) (req : PurchaseUpdateRequest) :
    Store × Except ApiError Purchase :=
  match findPurchase s0 pid with
  | none => (s0, .error .notFound)
  | some purchase0 =>
      if purchaseDupCheck s0 purchase0 req then (s0, .error .conflict)
      else
        match resavePurchase s0 (purchaseWithUpdates purchase0 req) with
        | (_, .error e) => (s0, .error e)
        | (s1, .ok purchase) =>
            match purchaseUpdateBalanceStep s1 purchase0.totalAmount purchase with
            | .error e => (s1, .error e)
            | .ok s2 => (purchaseUpdateStockPass s2 purchase0.items req.items, .ok purchase)

/-- The balance reversal shared by DELETE /api/purchases and its bulk
variant (purchase.js lines 396-399 and 473-476): add the full stored
`totalAmount` back to the linked party; an error is uncaught (500). -/
def purchaseDeleteBalanceStep (s2 : Store) (purchase : Purchase) :
    Store × Except ApiError Unit :=
  match purchase.partyId with
  | some partyId =>
      match updateBalance s2 partyId purchase.totalAmount ("add") with
      | .error _ => (s2, .error .server)
      | .ok (t, _) => (t, .ok ())
  | none => (s2, .ok ())

/-- The compensating effects shared by DELETE /api/purchases and its bulk
variant (purchase.js lines 352-399 and 431-476): reverse each line's stock
(clamped subtract), reverse Bardana by the summed kilograms (clamped), then
add the full `totalAmount` back to the party balance. -/
def purchaseDeleteEffects (s0 : Store) (purchase : Purchase) : Store × Except ApiError Unit :=
  purchaseDeleteBalanceStep
    (purchaseReverseBardana (purchase.items.foldl purchaseReverseStockStep s0) purchase.items)
    purchase

/-- DELETE /api/purchases/:id (purchase.js lines 420-491). -/
def deletePurchase (s0 : Store) (pid : Nat) : Store × Except ApiError Unit :=
  match findPurchase s0 pid with
  | none => (s0, .error .notFound)
  | some purchase =>
      match purchaseDeleteEffects s0 purchase with
      | (s1, .error e) => (s1, .error e)
      | (s1, .ok _) =>
          ({ s1 with purchases := s1.purchases.filter (fun x => x.id != pid) }, .ok ())

/-- The per-purchase loop of DELETE /api/purchases/bulk: effects run
sequentially; an uncaught balance error aborts the loop (and the final
deletion) with all prior effects kept. -/
def bulkDeleteLoop (s : Store) : List Purchase → Store × Except ApiError Unit
  | [] => (s, .ok ())
  | p :: rest =>
      match purchaseDeleteEffects s p with
      | (s1, .ok _) => bulkDeleteLoop s1 rest
      | (s1, .error e) => (s1, .error e)

/-- DELETE /api/purchases/bulk (purchase.js lines 331-417): select the
purchases whose ids are listed (404 when none), run the compensating
effects for each, then delete them all. -/
def bulkDeletePurchases (s0 : Store) (ids : List Nat) : Store × Except ApiError Nat :=
  if ids.isEmpty then (s0, .error .invalidInput)
  else if (s0.purchases.filter (fun p => ids.contains p.id)).isEmpty then
    (s0, .error .notFound)
  else
    match bulkDeleteLoop s0 (s0.purchases.filter (fun p => ids.contains p.id)) with
    | (s1, .error e) => (s1, .error e)
    | (s1, .ok _) =>
        ({ s1 with purchases := s1.purchases.filter (fun p => !ids.contains p.id) },
          .ok (s0.purchases.filter (fun p => ids.contains p.id)).length)

/-! ## Payment model statics (second document of src/models/Item.js) and
payment routes (second document of src/routes/purchase.js) -/

/-- Payment schema validation: payment number and party name required, type
in the two-element enum, strict phone, amount at least 0.01, nonnegative
total, MM/DD/YYYY date. -/
def validPaymentDoc (p : Payment) : Bool :=
  p.paymentNo != ("") && (p.ptype == ("payment-in") || p.ptype == ("payment-out")) &&
    p.partyName != ("") && decide (p.partyName.length ≤ 100) &&
    strictPhoneValid p.phoneNumber && decide (1 / 100 ≤ p.amount) &&
    decide (0 ≤ p.totalAmount) && validateDateFormat p.date

/-- Payment pre-save hook (Item.js lines 195-215): sanitise the phone and
fall back to `amount` when `totalAmount` is falsy (absent or zero). -/
def presavePayment (p : Payment) : Payment :=
  let p := { p with phoneNumber := sanitizePhone p.phoneNumber }
  if p.totalAmount = 0 then { p with totalAmount := p.amount } else p

/-- `payment.save()` for a new document. -/
def insertPayment (s : Store) (p : Payment) : Store × Except ApiError Payment :=
  if validPaymentDoc p then
    let p := presavePayment p
    ({ s with payments := s.payments ++ [p] }, .ok p)
  else (s, .error .invalidInput)

/-- `payment.save()` for an existing document: replace by id. -/
def resavePayment (s : Store) (p : Payment) : Store × Except ApiError Payment :=
  if validPaymentDoc p then
    let p := presavePayment p
    ({ s with payments := s.payments.map (fun x => if x.id == p.id then p else x) }, .ok p)
  else (s, .error .invalidInput)

/-- The balance direction of `Payment.updatePartyBalance`: payment-in
subtracts (the party owes less), payment-out adds. Any other type would
reach `Party.updateBalance` as undefined, which JS default parameters turn
into add; the schema enum makes that branch unreachable for stored
payments. -/
def paymentOperation (ptype : String) : String :=
  if ptype = ("payment-in") then ("subtract")
  else if ptype = ("payment-out") then ("add")
  else ("add")

/-- `paymentSchema.statics.updatePartyBalance` (Item.js lines 343-365):
no-op without a party link, otherwise apply the type-aware direction to the
payment's amount through `Party.updateBalance`. -/
def updatePartyBalance (s : Store) (payment : Payment) : Except ApiError Store :=
  match payment.partyId with
  | none => .ok s
  | some pid =>
      match updateBalance s pid payment.amount (paymentOperation payment.ptype) with
      | .error e => .error e
      | .ok (t, _) => .ok t

/-- Body of POST /api/payments. -/
structure PaymentRequest where
  ptype : String
  partyName : String
  phoneNumber : String
  amount : ℚ
  totalAmount : Option ℚ
  date : String
deriving DecidableEq, Repr

/-- `validatePaymentData` middleware (purchase.js lines 550-586): presence
(a zero amount is falsy and rejected), enum type, positive amount, date
shape. -/
def validPaymentRequest (req : PaymentRequest) : Bool :=
  req.ptype != ("") && req.partyName != ("") && req.phoneNumber != ("") &&
    req.amount != 0 && req.date != ("") &&
    (req.ptype == ("payment-in") || req.ptype == ("payment-out")) &&
    decide (0 < req.amount) && validateDateFormat req.date

/-- The Payment document assembled by POST /api/payments (purchase.js
lines 728-739): the time-and-randomness based
`generateUniquePaymentNumber` is abstracted as the `paymentNo` argument;
a falsy caller `totalAmount` falls back to `amount`. -/
def newPaymentDoc (s1 : Store) (paymentNo : String) (req : PaymentRequest)
    (link : Option Nat) : Payment :=
  { id := s1.nextId, paymentNo := paymentNo, ptype := req.ptype,
    partyName := req.partyName, phoneNumber := req.phoneNumber,
    amount := req.amount,
    totalAmount := match req.totalAmount with
      | none => req.amount
      | some t => if t = 0 then req.amount else t,
    date := req.date, partyId := link }

/-- POST /api/payments after party resolution: persist the payment, then
(only when a party link exists) apply the type-aware balance direction,
swallowing balance errors. -/
def createPaymentCore (s1 : Store) (paymentNo : String) (req : PaymentRequest)
    (link : Option Nat) : Store × Except ApiError Payment :=
  match insertPayment { s1 with nextId := s1.nextId + 1 } (newPaymentDoc s1 paymentNo req link) with
  | (_, .error e) => (s1, .error e)
  | (s2, .ok payment) =>
      match link with
      | none => (s2, .ok payment)
      | some _ =>
          match updatePartyBalance s2 payment with
          | .error _ => (s2, .ok payment)
          | .ok s3 => (s3, .ok payment)

/-- POST /api/payments, entry point: validation, then party resolution
(a failure is swallowed and the payment proceeds without a link). -/
def createPayment (s0 : Store) (paymentNo : String) (req : PaymentRequest) :
    Store × Except ApiError Payment :=
  if !validPaymentRequest req then (s0, .error .invalidInput)
  else
    match findOrCreateParty s0 req.partyName req.phoneNumber with
    | .ok (s1, party) => createPaymentCore s1 paymentNo req (some party.id)
    | .error _ => createPaymentCore s0 paymentNo req none

/-- Body of PUT /api/payments. -/
structure PaymentUpdateRequest where
  partyName : Option String
  phoneNumber : Option String
  amount : Option ℚ
  totalAmount : Option ℚ
  date : Option String
deriving DecidableEq, Repr

/-- The field changes of PUT /api/payments (purchase.js lines 802-810). -/
def paymentWithUpdates (payment : Payment) (req : PaymentUpdateRequest) : Payment :=
  { payment with
    partyName := applyOptStr payment.partyName req.partyName,
    phoneNumber := applyOptStr payment.phoneNumber req.phoneNumber,
    amount := match req.amount with
      | none => payment.amount
      | some a => a,
    totalAmount := match req.totalAmount with
      | none => payment.totalAmount
      | some t => t,
    date := applyOptStr payment.date req.date }

/-- The balance block of PUT /api/payments (purchase.js lines 814-827):
reverse the original amount with the fixed add operation against the
original party id, then apply the new amount with the type-aware
direction; both inside one swallowed-error block, so a failure of the
first skips the second while a failure of the second keeps the first. -/
def paymentUpdateBalanceBlock (s1 : Store) (originalPartyId : Option Nat)
    (originalAmount : ℚ) (payment : Payment) : Store :=
  match originalPartyId with
  | none => s1
  | some opid =>
      match updateBalance s1 opid originalAmount ("add") with
      | .error _ => s1
      | .ok (s2, _) =>
          match updatePartyBalance s2 payment with
          | .error _ => s2
          | .ok s3 => s3

/-- PUT /api/payments (purchase.js lines 776-851): load, capture the
original amount and party id, apply field changes, re-save, then run the
balance block when the amount changed and a party is linked. -/
def updatePayment (s0 : Store) (pmid : Nat) (req : PaymentUpdateRequest) :
    Store × Except ApiError Payment :=
  match findPayment s0 pmid with
  | none => (s0, .error .notFound)
  | some payment0 =>
      match resavePayment s0 (paymentWithUpdates payment0 req) with
      | (_, .error e) => (s0, .error e)
      | (s1, .ok payment) =>
          if payment0.amount ≠ payment.amount ∧ payment.partyId.isSome then
            (paymentUpdateBalanceBlock s1 payment0.partyId payment0.amount payment, .ok payment)
          else (s1, .ok payment)

/-- DELETE /api/payments (purchase.js lines 854-889): reverse the stored
amount with the fixed add operation (failure swallowed), then remove the
document unconditionally. -/
def paymentDeleteReversal (s0 : Store) (payment : Payment) : Store :=
  match payment.partyId with
  | none => s0
  | some pid =>
      match updateBalance s0 pid payment.amount ("add") with
      | .error _ => s0
      | .ok (t, _) => t

/-- DELETE /api/payments, continued: run the reversal, then remove the
document unconditionally. -/
def deletePayment (s0 : Store) (pmid : Nat) : Store × Except ApiError Unit :=
  match findPayment s0 pmid with
  | none => (s0, .error .notFound)
  | some payment =>
      ({ paymentDeleteReversal s0 payment with
          payments := (paymentDeleteReversal s0 payment).payments.filter (fun x => x.id != pmid) },
        .ok ())

/-! ## Item routes (src/routes/item.js) -/

/-- Body of POST and PUT /api/items. -/
structure ItemRequest where
  productName : String
  category : String
  purchasePrice : ℚ
  salePrice : ℚ
  openingStock : ℚ
  lowStockAlert : ℚ
  isUniversal : Bool
deriving DecidableEq, Repr

/-- `validateItem` middleware (validation.js lines 358-404): presence,
nonempty trimmed name, enum category, nonnegative stock and alert. -/
def validItemRequest (req : ItemRequest) : Bool :=
  (trimStr req.productName) != ("") &&
    (req.category == ("Primary") || req.category == ("Kirana")) &&
    decide (0 ≤ req.openingStock) && decide (0 ≤ req.lowStockAlert)

/-- Case-insensitive product-name comparison, as the routes' anchored
case-insensitive regex lookup. -/
def sameNameCI (a b : String) : Bool :=
  lowerStr a == lowerStr b

/-- POST /api/items (item.js lines 68-126): middleware validation,
case-insensitive duplicate-name rejection, then insert with a fresh id. -/
def createItem (s0 : Store) (req : ItemRequest) : Store × Except ApiError Item :=
  if !validItemRequest req then (s0, .error .invalidInput)
  else if (s0.items.any (fun i => sameNameCI i.productName (trimStr req.productName))) then
    (s0, .error .conflict)
  else
    let item : Item :=
      { id := s0.nextId, productName := (trimStr req.productName), category := req.category,
        purchasePrice := req.purchasePrice, salePrice := req.salePrice,
        openingStock := req.openingStock, lowStockAlert := req.lowStockAlert,
        isUniversal := req.isUniversal }
    ({ s0 with items := s0.items ++ [item], nextId := s0.nextId + 1 }, .ok item)

/-- PUT /api/items (item.js lines 129-200): middleware validation, 404 when
absent, case-insensitive duplicate-name rejection against other items, then
overwrite the listed fields (isUniversal is not overwritten). -/
def updateItem (s0 : Store) (iid : Nat) (req : ItemRequest) : Store × Except ApiError Item :=
  if !validItemRequest req then (s0, .error .invalidInput)
  else
    match findItem s0 iid with
    | none => (s0, .error .notFound)
    | some item =>
        if (trimStr req.productName) != item.productName &&
            s0.items.any (fun i => sameNameCI i.productName (trimStr req.productName) && i.id != iid)
        then (s0, .error .conflict)
        else
          let item :=
            { item with
              productName := (trimStr req.productName),
              category := req.category,
              purchasePrice := req.purchasePrice,
              salePrice := req.salePrice,
              openingStock := req.openingStock,
              lowStockAlert := req.lowStockAlert }
          (saveItem s0 item, .ok item)

/-- DELETE /api/items (item.js lines 203-235): 404 when absent, universal
items cannot be deleted. -/
def deleteItem (s0 : Store) (iid : Nat) : Store × Except ApiError Unit :=
  match findItem s0 iid with
  | none => (s0, .error .notFound)
  | some item =>
      if item.isUniversal then (s0, .error .invalidInput)
      else ({ s0 with items := s0.items.filter (fun i => i.id != iid) }, .ok ())

/-- `Math.round(x * 100) / 100` as the Bardana stock route computes it
(round half towards positive infinity). -/
def jsRound2 (x : ℚ) : ℚ :=
  (⌊x * 100 + 1 / 2⌋ : ℤ) / 100

/-- PUT /api/items/bardana/stock (item.js lines 357-408): operation add or
subtract with a truthy quantity in kilograms; add rounds to two decimals
(a negative result fails the min-0 update validator and nothing is
written), subtract rounds and clamps at 0 via Math.max. -/
def bardanaNewStock (operation : String) (quantity : ℚ) (b : Item) : ℚ :=
  if operation = ("add") then jsRound2 (b.openingStock + quantity / 30)
  else max 0 (jsRound2 (b.openingStock - quantity / 30))

/-- PUT /api/items/bardana/stock, continued: reject the request shape,
resolve Bardana, compute the rounded stock, and let the min-0 update
validator refuse a negative result without writing. -/
def updateBardanaStock (s0 : Store) (operation : String) (quantity : ℚ) :
    Store × Except ApiError Item :=
  if quantity = 0 || !(operation == ("add") || operation == ("subtract")) then
    (s0, .error .invalidInput)
  else
    match findBardana s0 with
    | none => (s0, .error .notFound)
    | some b =>
        if bardanaNewStock operation quantity b < 0 then (s0, .error .server)
        else
          (saveItem s0 { b with openingStock := bardanaNewStock operation quantity b },
            .ok { b with openingStock := bardanaNewStock operation quantity b })

/-! ## Party routes (src/routes/party.js) -/

/-- Body of PUT /api/parties. -/
structure PartyUpdateRequest where
  name : Option String
  phoneNumber : Option String
  balance : Option ℚ
deriving DecidableEq, Repr

/-- The duplicate name-and-phone check of PUT /api/parties (lines
138-152). -/
def partyDupCheck (s0 : Store) (pid : Nat) (req : PartyUpdateRequest) : Bool :=
  match req.name, req.phoneNumber with
  | some n, some ph =>
      n != ("") && ph != ("") &&
        s0.parties.any (fun q => q.name == n && q.phoneNumber == ph && q.id != pid)
  | _, _ => false

/-- The field changes of PUT /api/parties (lines 154-159), including the
direct assignment of `balance` from the request body. -/
def partyWithUpdates (party : Party) (req : PartyUpdateRequest) : Party :=
  { party with
    name := applyOptStr party.name req.name,
    phoneNumber := applyOptStr party.phoneNumber req.phoneNumber,
    balance := match req.balance with
      | none => party.balance
      | some b => b }

/-- PUT /api/parties (party.js lines 124-185): load, duplicate check when
both identity fields are supplied, apply field changes, validate and
re-save. -/
def updateParty (s0 : Store) (pid : Nat) (req : PartyUpdateRequest) :
    Store × Except ApiError Party :=
  match findParty s0 pid with
  | none => (s0, .error .notFound)
  | some party =>
      if partyDupCheck s0 pid req then (s0, .error .conflict)
      else
        if validPartyDoc (partyWithUpdates party req) then
          (saveParty s0 (presaveParty (partyWithUpdates party req)),
            .ok (presaveParty (partyWithUpdates party req)))
        else (s0, .error .invalidInput)

/-- PATCH /api/parties/:id/balance (party.js lines 187-228): presence
checks, the operation must be add, subtract or set (anything else is a
400-class rejection before `Party.updateBalance` is reached), then delegate
to `Party.updateBalance` with a 404 when the party does not resolve. -/
def patchPartyBalance (s0 : Store) (pid : Nat) (amount : Option ℚ) (operation : String) :
    Store × Except ApiError Party :=
  match amount with
  | none => (s0, .error .invalidInput)
  | some amt =>
      if operation = ("") then (s0, .error .invalidInput)
      else if !(operation == ("add") || operation == ("subtract") || operation == ("set")) then
        (s0, .error .invalidInput)
      else
        match updateBalance s0 pid amt operation with
        | .error e => (s0, .error e)
        | .ok (s1, party) => (s1, .ok party)

/-! ## Observations and the lifecycle operation alphabet -/

/-- Opening stock of the item with the given id, when present. -/
def itemStockOf (s : Store) (iid : Nat) : Option ℚ :=
  (findItem s iid).map (fun i => i.openingStock)

/-- Opening stock of the universal Bardana item, when present. -/
def bardanaStockOf (s : Store) : Option ℚ :=
  (findBardana s).map (fun i => i.openingStock)

/-- Balance of the party with the given id, when present. -/
def partyBalanceOf (s : Store) (pid : Nat) : Option ℚ :=
  (findParty s pid).map (fun p => p.balance)

/-- The lifecycle operations exposed by the system that the invariant and
single-point-of-truth claims range over. Party and Payment creation
initialise a fresh document (balance 0 for a new Party) and are therefore
creations, not mutations of an existing balance. -/
inductive Op where
  | saleCreate (req : SaleRequest)
  | saleUpdate (sid : Nat) (req : SaleUpdateRequest)
  | saleDelete (sid : Nat)
  | purchaseCreate (req : PurchaseRequest)
  | purchaseUpdate (pid : Nat) (req : PurchaseUpdateRequest)
  | purchaseDelete (pid : Nat)
  | purchaseBulkDelete (ids : List Nat)
  | itemCreate (req : ItemRequest)
  | itemUpdate (iid : Nat) (req : ItemRequest)
  | itemDelete (iid : Nat)
  | bardanaStockUpdate (operation : String) (quantity : ℚ)
  | paymentCreate (paymentNo : String) (req : PaymentRequest)
  | paymentUpdate (pmid : Nat) (req : PaymentUpdateRequest)
  | paymentDelete (pmid : Nat)
  | partyBalancePatch (pid : Nat) (amount : Option ℚ) (operation : String)
  | partyUpdate (pid : Nat) (req : PartyUpdateRequest)
deriving DecidableEq, Repr

/-- The store reached by running one lifecycle operation (the body of the
corresponding route handler), whatever outcome it reports. -/
def applyOp (s : Store) : Op → Store
  | .saleCreate req => (createSale s req).1
  | .saleUpdate sid req => (updateSale s sid req).1
  | .saleDelete sid => (deleteSale s sid).1
  | .purchaseCreate req => (createPurchase s req).1
  | .purchaseUpdate pid req => (updatePurchase s pid req).1
  | .purchaseDelete pid => (deletePurchase s pid).1
  | .purchaseBulkDelete ids => (bulkDeletePurchases s ids).1
  | .itemCreate req => (createItem s req).1
  | .itemUpdate iid req => (updateItem s iid req).1
  | .itemDelete iid => (deleteItem s iid).1
  | .bardanaStockUpdate operation quantity => (updateBardanaStock s operation quantity).1
  | .paymentCreate paymentNo req => (createPayment s paymentNo req).1
  | .paymentUpdate pmid req => (updatePayment s pmid req).1
  | .paymentDelete pmid => (deletePayment s pmid).1
  | .partyBalancePatch pid amount operation => (patchPartyBalance s pid amount operation).1
  | .partyUpdate pid req => (updateParty s pid req).1

/-- The store reached by a sequence of lifecycle operations. -/
def applyOps (s : Store) (ops : List Op) : Store :=
  ops.foldl applyOp s

/-- A mutation of an existing Party's balance field, tagged by the
mechanism the handler uses: a call to `Party.updateBalance`, or a direct
assignment of the field inside the handler body. -/
inductive BalanceWrite where
  | viaUpdateBalance (partyId : Nat) (amount : ℚ) (operation : String)
  | directAssign (partyId : Nat) (value : ℚ)
deriving DecidableEq, Repr

/-- Whether a balance mutation goes through `Party.updateBalance`. -/
def BalanceWrite.isVia : BalanceWrite → Bool
  | .viaUpdateBalance _ _ _ => true
  | .directAssign _ _ => false

/-- Balance mutations performed by POST /api/sales: one type-aware
`Party.updateBalance` call once the sale has been persisted. -/
def saleCreateBalanceWrites (s0 : Store) (req : SaleRequest) : List BalanceWrite :=
  if req.partyName = ("") || req.phoneNumber = ("") || req.date = ("") then []
  else if req.items.isEmpty then []
  else
    match findOrCreateParty s0 req.partyName req.phoneNumber with
    | .error _ => []
    | .ok (s1, party) =>
        match insertSale { s1 with nextId := s1.nextId + 1 } (newSaleDoc s0 s1 req party.id) with
        | (_, .error _) => []
        | (_, .ok sale) => [.viaUpdateBalance party.id sale.totalAmount ("add")]

/-- Balance mutations performed by PUT /api/sales: one difference-applying
`Party.updateBalance` call when the total changed. -/
def saleUpdateBalanceWrites (s0 : Store) (sid : Nat) (req : SaleUpdateRequest) :
    List BalanceWrite :=
  match findSale s0 sid with
  | none => []
  | some sale0 =>
      match resaveSale s0 (saleWithUpdates sale0 req) with
      | (_, .error _) => []
      | (_, .ok sale) =>
          match sale.partyId with
          | some pid =>
              if sale0.totalAmount ≠ sale.totalAmount then
                [.viaUpdateBalance pid (sale.totalAmount - sale0.totalAmount) ("add")]
              else []
          | none => []

/-- Balance mutations performed by DELETE /api/sales. -/
def saleDeleteBalanceWrites (s0 : Store) (sid : Nat) : List BalanceWrite :=
  match findSale s0 sid with
  | none => []
  | some sale =>
      match sale.partyId with
      | some pid => [.viaUpdateBalance pid sale.totalAmount ("subtract")]
      | none => []

/-- Balance mutations performed by POST /api/purchases. -/
def purchaseCreateBalanceWrites (s0 : Store) (req : PurchaseRequest) : List BalanceWrite :=
  if !validPurchaseRequest req then []
  else if isBillNumberExists s0 (trimStr req.billNo) then []
  else
    match findOrCreateParty s0 req.partyName (sanitizePhone req.phoneNumber) with
    | .error _ => []
    | .ok (s1, party) =>
        match insertPurchase { s1 with nextId := s1.nextId + 1 } (newPurchaseDoc s1 req party.id) with
        | (_, .error _) => []
        | (_, .ok purchase) => [.viaUpdateBalance party.id purchase.totalAmount ("subtract")]

/-- Balance mutations performed by PUT /api/purchases. -/
def purchaseUpdateBalanceWrites (s0 : Store) (pid : Nat) (req : PurchaseUpdateRequest) :
    List BalanceWrite :=
  match findPurchase s0 pid with
  | none => []
  | some purchase0 =>
      if purchaseDupCheck s0 purchase0 req then []
      else
        match resavePurchase s0 (purchaseWithUpdates purchase0 req) with
        | (_, .error _) => []
        | (_, .ok purchase) =>
            match purchase.partyId with
            | some partyId =>
                if purchase0.totalAmount ≠ purchase.totalAmount then
                  [.viaUpdateBalance partyId (purchase.totalAmount - purchase0.totalAmount)
                    ("subtract")]
                else []
            | none => []

/-- Balance mutations performed by the shared purchase-delete effects. -/
def purchaseDeleteBalanceWrites (purchase : Purchase) : List BalanceWrite :=
  match purchase.partyId with
  | some partyId => [.viaUpdateBalance partyId purchase.totalAmount ("add")]
  | none => []

/-- Balance mutations performed by the bulk-delete loop: one reversal per
processed purchase, stopping after an uncaught balance error. -/
def bulkDeleteLoopBalanceWrites (s : Store) : List Purchase → List BalanceWrite
  | [] => []
  | p :: rest =>
      match purchaseDeleteEffects s p with
      | (s1, .ok _) => purchaseDeleteBalanceWrites p ++ bulkDeleteLoopBalanceWrites s1 rest
      | (_, .error _) => purchaseDeleteBalanceWrites p

/-- Balance mutations performed by POST /api/payments: the type-aware
direction through `Payment.updatePartyBalance`. -/
def paymentCreateBalanceWrites (s0 : Store) (paymentNo : String) (req : PaymentRequest) :
    List BalanceWrite :=
  if !validPaymentRequest req then []
  else
    match findOrCreateParty s0 req.partyName req.phoneNumber with
    | .error _ => []
    | .ok (s1, party) =>
        if validPaymentDoc (newPaymentDoc s1 paymentNo req (some party.id)) then
          [.viaUpdateBalance party.id req.amount (paymentOperation req.ptype)]
        else []

/-- Balance mutations performed by PUT /api/payments: the fixed add-reversal
of the original amount, then (when the reversal succeeded) the type-aware
application of the new amount. -/
def paymentUpdateBalanceWrites (s0 : Store) (pmid : Nat) (req : PaymentUpdateRequest) :
    List BalanceWrite :=
  match findPayment s0 pmid with
  | none => []
  | some payment0 =>
      match resavePayment s0 (paymentWithUpdates payment0 req) with
      | (_, .error _) => []
      | (s1, .ok payment) =>
          if payment0.amount ≠ payment.amount ∧ payment.partyId.isSome then
            match payment0.partyId with
            | none => []
            | some opid =>
                match updateBalance s1 opid payment0.amount ("add") with
                | .error _ => [.viaUpdateBalance opid payment0.amount ("add")]
                | .ok _ =>
                    .viaUpdateBalance opid payment0.amount ("add") ::
                      (match payment.partyId with
                       | some pid =>
                           [.viaUpdateBalance pid payment.amount
                             (paymentOperation payment.ptype)]
                       | none => [])
          else []

/-- Balance mutations performed by DELETE /api/payments. -/
def paymentDeleteBalanceWrites (s0 : Store) (pmid : Nat) : List BalanceWrite :=
  match findPayment s0 pmid with
  | none => []
  | some payment =>
      match payment.partyId with
      | some pid => [.viaUpdateBalance pid payment.amount ("add")]
      | none => []

/-- Balance mutations performed by PATCH /api/parties/:id/balance: the
delegated `Party.updateBalance` call once the operation passed the
allow-list. -/
def partyBalancePatchBalanceWrites (pid : Nat) (amount : Option ℚ) (operation : String) :
    List BalanceWrite :=
  match amount with
  | none => []
  | some amt =>
      if operation = ("") then []
      else if !(operation == ("add") || operation == ("subtract") || operation == ("set")) then []
      else [.viaUpdateBalance pid amt operation]

/-- Balance mutations performed by PUT /api/parties: a direct assignment of
the balance field from the request body, persisted by the re-save (party.js
line 159). -/
def partyUpdateBalanceWrites (s0 : Store) (pid : Nat) (req : PartyUpdateRequest) :
    List BalanceWrite :=
  match findParty s0 pid with
  | none => []
  | some party =>
      if partyDupCheck s0 pid req then []
      else if validPartyDoc (partyWithUpdates party req) then
        match req.balance with
        | none => []
        | some b => [.directAssign pid b]
      else []

/-- The balance mutations of an existing Party performed by one lifecycle
operation, tagged by mechanism; item routes never touch balances. -/
def opBalanceWrites (s : Store) : Op → List BalanceWrite
  | .saleCreate req => saleCreateBalanceWrites s req
  | .saleUpdate sid req => saleUpdateBalanceWrites s sid req
  | .saleDelete sid => saleDeleteBalanceWrites s sid
  | .purchaseCreate req => purchaseCreateBalanceWrites s req
  | .purchaseUpdate pid req => purchaseUpdateBalanceWrites s pid req
  | .purchaseDelete pid =>
      match findPurchase s pid with
      | none => []
      | some purchase => purchaseDeleteBalanceWrites purchase
  | .purchaseBulkDelete ids =>
      if ids.isEmpty then []
      else bulkDeleteLoopBalanceWrites s (s.purchases.filter (fun p => ids.contains p.id))
  | .itemCreate _ => []
  | .itemUpdate _ _ => []
  | .itemDelete _ => []
  | .bardanaStockUpdate _ _ => []
  | .paymentCreate paymentNo req => paymentCreateBalanceWrites s paymentNo req
  | .paymentUpdate pmid req => paymentUpdateBalanceWrites s pmid req
  | .paymentDelete pmid => paymentDeleteBalanceWrites s pmid
  | .partyBalancePatch pid amount operation => partyBalancePatchBalanceWrites pid amount operation
  | .partyUpdate pid req => partyUpdateBalanceWrites s pid req

/-! ## Small projection lemmas -/

theorem saveItem_sales (s : Store) (i : Item) : (saveItem s i).sales = s.sales := rfl

theorem saveParty_sales (s : Store) (p : Party) : (saveParty s p).sales = s.sales := rfl

theorem saleCreateStockStep_sales (s : Store) (l : SaleItem) :
    (saleCreateStockStep s l).sales = s.sales := by
  unfold saleCreateStockStep
  cases findItem s l.id <;> rfl

theorem foldl_saleCreateStockStep_sales (ls : List SaleItem) (s : Store) :
    (ls.foldl saleCreateStockStep s).sales = s.sales := by
  induction ls generalizing s with
  | nil => rfl
  | cons l ls ih => rw [List.foldl_cons, ih, saleCreateStockStep_sales]

theorem saleCreateBardana_sales (s : Store) (ls : List SaleItem) :
    (saleCreateBardana s ls).sales = s.sales := by
  unfold saleCreateBardana
  cases findBardana s <;> rfl

theorem updateBalance_sales {s t : Store} {pid : Nat} {a : ℚ} {op : String} {p : Party}
    (h : updateBalance s pid a op = .ok (t, p)) : t.sales = s.sales := by
  unfold updateBalance at h
  cases hf : findParty s pid with
  | none => rw [hf] at h; exact absurd h (by simp)
  | some q =>
      rw [hf] at h
      simp only [Except.ok.injEq, Prod.mk.injEq] at h
      rw [← h.1, saveParty_sales]

/-! ## Parametric base stores for the lifecycle claims

A canonical well-formed store: one party (id 1), one ordinary item (id 10)
and the universal Bardana item (id 20), with symbolic balance and stocks. -/

/-- The canonical linked party. -/
def baseParty (b : ℚ) : Party :=
  { id := 1, name := ("P1"), phoneNumber := ("+911234567890"), balance := b }

/-- The canonical ordinary item with symbolic opening stock (in bags). -/
def baseItem (x : ℚ) : Item :=
  { id := 10, productName := ("Rice"), category := ("Primary"), purchasePrice := 0,
    salePrice := 0, openingStock := x, lowStockAlert := 0, isUniversal := false }

/-- The canonical universal Bardana item with symbolic opening stock. -/
def baseBardana (x : ℚ) : Item :=
  { id := 20, productName := ("Bardana"), category := ("Primary"), purchasePrice := 0,
    salePrice := 0, openingStock := x, lowStockAlert := 10, isUniversal := true }

/-- The canonical store: balance `b`, item stock `x`, Bardana stock `y`. -/
def baseStore (b x y : ℚ) : Store :=
  { parties := [baseParty b], items := [baseItem x, baseBardana y],
    sales := [], purchases := [], payments := [], nextId := 100 }

/-- A single-line sale request against the canonical item: quantity `q` kg
at rate `r`, with an arbitrary caller-supplied line total `t`. -/
def oneLineRequest (q r t : ℚ) : SaleRequest :=
  { partyName := ("P1"), phoneNumber := ("+911234567890"),
    items := [{ id := 10, itemName := ("Rice"), quantity := q, rate := r, total := t }],
    date := ("01/02/2024"), totalAmount := 0 }

/-! ## Supporting lemmas for the claims -/

theorem recalcItems_total (items : List SaleItem) :
    ∀ line ∈ recalcItems items, line.total = line.quantity * line.rate := by
  intro line hline
  unfold recalcItems at hline
  obtain ⟨it, _, rfl⟩ := List.mem_map.mp hline
  rfl

theorem presaveSaleFields_of_ne (phone : String) (items : List SaleItem) (t : ℚ)
    (h : ¬ items.isEmpty = true) :
    presaveSaleFields phone items t =
      (sanitizePhone phone, recalcItems items, itemsGrandTotal items) := by
  unfold presaveSaleFields
  rw [if_neg h]

/-! ## Claim theorems -/

/-- C1: for every valid sale creation, the persisted Sale's `totalAmount`
equals the sum over its line items of quantity * rate, and each line's
total is overwritten to quantity * rate, regardless of any `totalAmount`
or per-line total supplied by the caller (the request's `totalAmount` and
line totals are universally quantified and never read into the result). -/
theorem C1_sale_totals (s s' : Store) (req : SaleRequest) (sale : Sale)
    (h : createSale s req = (s', .ok sale)) :
    sale.totalAmount = itemsGrandTotal req.items ∧
    sale.items = recalcItems req.items ∧
    (∀ line ∈ sale.items, line.total = line.quantity * line.rate) ∧
    sale ∈ s'.sales := by
  unfold createSale at h
  split at h
  · simp at h
  · split at h
    · simp at h
    · rename_i hfields hitems
      split at h
      · simp at h
      · rename_i s1 party hfoc
        split at h
        · simp at h
        · rename_i s2 saleP hins
          split at h
          · simp at h
          · rename_i s3 pty hbal
            simp only [Prod.mk.injEq, Except.ok.injEq] at h
            obtain ⟨hs', hsale⟩ := h
            subst hsale
            subst hs'
            unfold insertSale at hins
            simp only [newSaleDoc] at hins
            rw [presaveSaleFields_of_ne _ _ _ hitems] at hins
            split at hins
            · simp only [Prod.mk.injEq, Except.ok.injEq] at hins
              obtain ⟨hs2, hsaleP⟩ := hins
              subst hsaleP
              refine ⟨rfl, rfl, recalcItems_total _, ?_⟩
              rw [saleCreateBardana_sales, foldl_saleCreateStockStep_sales,
                updateBalance_sales hbal, ← hs2]
              simp
            · simp at hins

/-- The concrete persisted sale of the C1 witness run. -/
def c1WitnessSale : Sale :=
  { id := 100, invoiceNo := ("1"), partyName := ("P1"), phoneNumber := ("+911234567890"),
    items := [{ id := 10, itemName := ("Rice"), quantity := 90, rate := 10, total := 900 }],
    totalAmount := 900, date := ("01/02/2024"), partyId := some 1 }

theorem C1_sale_totals_witness :
    c1WitnessSale.totalAmount = itemsGrandTotal (oneLineRequest 90 10 7).items ∧
    c1WitnessSale.items = recalcItems (oneLineRequest 90 10 7).items ∧
    (∀ line ∈ c1WitnessSale.items, line.total = line.quantity * line.rate) ∧
    c1WitnessSale ∈ (createSale (baseStore 0 5 5) (oneLineRequest 90 10 7)).1.sales :=
  C1_sale_totals (baseStore 0 5 5) (createSale (baseStore 0 5 5) (oneLineRequest 90 10 7)).1
    (oneLineRequest 90 10 7) c1WitnessSale (by
      have h2 : (createSale (baseStore 0 5 5) (oneLineRequest 90 10 7)).2 =
          .ok c1WitnessSale := by
        have hdate : validateDateFormat ("01/02/2024") = true := by decide
        have hphone : docPhoneValid ("+911234567890") = true := by decide
        have hsan : sanitizePhone ("+911234567890") = ("+911234567890") := by decide
        have hlen : ("P1").length ≤ 100 := by decide
        simp [createSale, newSaleDoc, baseStore, oneLineRequest, baseParty, baseItem,
          baseBardana, generateNextInvoiceNumber, lastInvoiceNo, findOrCreateParty,
          insertSale, validTxnDoc, validDocItems, presaveSaleFields, recalcItems,
          itemsGrandTotal, updateBalance, findParty, saveParty, presaveParty,
          saleCreateStockStep, findItem, saveItem, saleCreateBardana, findBardana,
          totalKg, List.find?, c1WitnessSale, hdate, hphone, hsan, hlen]
        norm_num
      rw [← h2])

/-- C3: creating a Sale with one line of 90 kg for the canonical existing
item decreases that item's stock by exactly 3 bags and Bardana's stock by
3 bags (when both hold at least 3 bags); when the item holds only 2 bags
its stock clamps to 0 (the shortfall is discarded) while Bardana still
decreases by the full 3 bags. -/
theorem C3_sale_90kg_stock (b x y r t : ℚ) (hr : 0 ≤ r) (ht : 0 ≤ t) (hy : 3 ≤ y) :
    (3 ≤ x →
      itemStockOf (createSale (baseStore b x y) (oneLineRequest 90 r t)).1 10 = some (x - 3) ∧
      bardanaStockOf (createSale (baseStore b x y) (oneLineRequest 90 r t)).1 = some (y - 3)) ∧
    (x = 2 →
      itemStockOf (createSale (baseStore b x y) (oneLineRequest 90 r t)).1 10 = some 0 ∧
      bardanaStockOf (createSale (baseStore b x y) (oneLineRequest 90 r t)).1 = some (y - 3)) := by
  have hdate : validateDateFormat ("01/02/2024") = true := by decide
  have hphone : docPhoneValid ("+911234567890") = true := by decide
  have hsan : sanitizePhone ("+911234567890") = ("+911234567890") := by decide
  have hlen : ("P1").length ≤ 100 := by decide
  have hy3 : ¬ (y - 90 / 30 < 0) := by
    have h30 : (90 : ℚ) / 30 = 3 := by norm_num
    rw [h30]; linarith
  constructor
  · intro hx
    have hx3 : ¬ (x - 90 / 30 < 0) := by
      have h30 : (90 : ℚ) / 30 = 3 := by norm_num
      rw [h30]; linarith
    simp [createSale, newSaleDoc, baseStore, oneLineRequest, baseParty, baseItem, baseBardana,
      generateNextInvoiceNumber, lastInvoiceNo, findOrCreateParty, newPartyDoc, insertSale,
      validTxnDoc, validDocItems,
      presaveSaleFields, recalcItems, itemsGrandTotal, updateBalance, findParty,
      saveParty, presaveParty, saleCreateStockStep, findItem, saveItem,
      saleCreateBardana, findBardana, totalKg, itemStockOf, bardanaStockOf, List.find?,
      hr, ht, hdate, hphone, hsan, hlen, hx3, hy3]
    norm_num
  · intro hx
    subst hx
    have hx2 : ((2 : ℚ) - 90 / 30 < 0) := by norm_num
    simp [createSale, newSaleDoc, baseStore, oneLineRequest, baseParty, baseItem, baseBardana,
      generateNextInvoiceNumber, lastInvoiceNo, findOrCreateParty, newPartyDoc, insertSale,
      validTxnDoc, validDocItems,
      presaveSaleFields, recalcItems, itemsGrandTotal, updateBalance, findParty,
      saveParty, presaveParty, saleCreateStockStep, findItem, saveItem,
      saleCreateBardana, findBardana, totalKg, itemStockOf, bardanaStockOf, List.find?,
      hr, ht, hdate, hphone, hsan, hlen, hx2, hy3]
    norm_num

theorem C3_sale_90kg_stock_witness :
    ((0 : ℚ) ≤ 10 ∧ (0 : ℚ) ≤ 0 ∧ (3 : ℚ) ≤ 7) ∧
    (((3 : ℚ) ≤ 5 →
      itemStockOf (createSale (baseStore 0 5 7) (oneLineRequest 90 10 0)).1 10 = some (5 - 3) ∧
      bardanaStockOf (createSale (baseStore 0 5 7) (oneLineRequest 90 10 0)).1 = some (7 - 3)) ∧
    ((5 : ℚ) = 2 →
      itemStockOf (createSale (baseStore 0 5 7) (oneLineRequest 90 10 0)).1 10 = some 0 ∧
      bardanaStockOf (createSale (baseStore 0 5 7) (oneLineRequest 90 10 0)).1 = some (7 - 3))) :=
  ⟨by norm_num, C3_sale_90kg_stock 0 5 7 10 0 (by norm_num) (by norm_num) (by norm_num)⟩

/-- C2 counterexample: with the canonical item holding 2 bags, creating a
90 kg Sale clamps its stock to 0 (discarding the 1-bag shortfall) and the
subsequent delete restores 3 bags, leaving 3 ≠ 2 — so create-then-delete
is not a round-trip identity on item stock. -/
theorem C2_roundtrip_counterexample :
    itemStockOf (baseStore 0 2 5) 10 = some 2 ∧
    itemStockOf (deleteSale (createSale (baseStore 0 2 5) (oneLineRequest 90 10 0)).1 100).1 10
      = some 3 ∧
    (3 : ℚ) ≠ 2 := by
  have hdate : validateDateFormat ("01/02/2024") = true := by decide
  have hphone : docPhoneValid ("+911234567890") = true := by decide
  have hsan : sanitizePhone ("+911234567890") = ("+911234567890") := by decide
  have hlen : ("P1").length ≤ 100 := by decide
  have hclamp : ((2 : ℚ) - 90 / 30 < 0) := by norm_num
  refine ⟨by simp [itemStockOf, baseStore, baseItem, baseBardana, findItem, List.find?],
    ?_, by norm_num⟩
  simp [createSale, newSaleDoc, baseStore, oneLineRequest, baseParty, baseItem,
    baseBardana, generateNextInvoiceNumber, lastInvoiceNo, findOrCreateParty,
    insertSale, validTxnDoc, validDocItems, presaveSaleFields, recalcItems,
    itemsGrandTotal, updateBalance, findParty, saveParty, presaveParty,
    saleCreateStockStep, findItem, saveItem, saleCreateBardana, findBardana,
    totalKg, List.find?, hdate, hphone, hsan, hlen, hclamp,
    deleteSale, findSale, saleRestoreStockStep, saleRestoreBardana,
    saleDeleteBalanceStep, itemStockOf]
  norm_num

/-- C2 (amended): creating and then deleting a single-line Sale restores
the referenced item's stock, Bardana's stock and the linked Party's
balance, provided no clamp fires during the create — that is, the decrement
of q/30 bags is within both the item's and Bardana's available stock. When
a clamp fires the delete over-restores stock (see the counterexample); the
balance is the part that the pair of operations always reverses exactly. -/
theorem C2_roundtrip_noclamp (b x y q r t : ℚ) (hq : 0 ≤ q) (hr : 0 ≤ r) (ht : 0 ≤ t)
    (hx : q / 30 ≤ x) (hy : q / 30 ≤ y) :
    itemStockOf (deleteSale (createSale (baseStore b x y) (oneLineRequest q r t)).1 100).1 10
      = some x ∧
    bardanaStockOf (deleteSale (createSale (baseStore b x y) (oneLineRequest q r t)).1 100).1
      = some y ∧
    partyBalanceOf (deleteSale (createSale (baseStore b x y) (oneLineRequest q r t)).1 100).1 1
      = some b := by
  have hdate : validateDateFormat ("01/02/2024") = true := by decide
  have hphone : docPhoneValid ("+911234567890") = true := by decide
  have hsan : sanitizePhone ("+911234567890") = ("+911234567890") := by decide
  have hlen : ("P1").length ≤ 100 := by decide
  have hx3 : ¬ (x - q / 30 < 0) := by linarith
  have hy3 : ¬ (y - q / 30 < 0) := by linarith
  simp [createSale, newSaleDoc, baseStore, oneLineRequest, baseParty, baseItem,
    baseBardana, generateNextInvoiceNumber, lastInvoiceNo, findOrCreateParty,
    insertSale, validTxnDoc, validDocItems, presaveSaleFields, recalcItems,
    itemsGrandTotal, updateBalance, findParty, saveParty, presaveParty,
    saleCreateStockStep, findItem, saveItem, saleCreateBardana, findBardana,
    totalKg, List.find?, hdate, hphone, hsan, hlen, hq, hr, ht, hx3, hy3,
    deleteSale, findSale, saleRestoreStockStep, saleRestoreBardana,
    saleDeleteBalanceStep, itemStockOf, bardanaStockOf, partyBalanceOf]

theorem C2_roundtrip_noclamp_witness :
    ((0 : ℚ) ≤ 90 ∧ (0 : ℚ) ≤ 10 ∧ (0 : ℚ) ≤ 0 ∧
      (90 : ℚ) / 30 ≤ 5 ∧ (90 : ℚ) / 30 ≤ 6) ∧
    (itemStockOf (deleteSale (createSale (baseStore 1 5 6) (oneLineRequest 90 10 0)).1 100).1 10
      = some 5 ∧
    bardanaStockOf (deleteSale (createSale (baseStore 1 5 6) (oneLineRequest 90 10 0)).1 100).1
      = some 6 ∧
    partyBalanceOf (deleteSale (createSale (baseStore 1 5 6) (oneLineRequest 90 10 0)).1 100).1 1
      = some 1) :=
  ⟨by norm_num,
    C2_roundtrip_noclamp 1 5 6 90 10 0 (by norm_num) (by norm_num) (by norm_num)
      (by norm_num) (by norm_num)⟩

/-- A payment-creation request against the canonical party. -/
def basePaymentRequest (t : String) (a : ℚ) : PaymentRequest :=
  { ptype := t, partyName := ("P1"), phoneNumber := ("+911234567890"),
    amount := a, totalAmount := none, date := ("01/02/2024") }

/-- A stored payment of type `t` and amount `a` linked to the canonical
party. -/
def basePayment (t : String) (a : ℚ) : Payment :=
  { id := 50, paymentNo := ("PAY-1"), ptype := t, partyName := ("P1"),
    phoneNumber := ("+911234567890"), amount := a, totalAmount := a,
    date := ("01/02/2024"), partyId := some 1 }

/-- The canonical store holding one party (balance `b`) and one stored
payment. -/
def paymentStore (b : ℚ) (t : String) (a : ℚ) : Store :=
  { parties := [baseParty b], items := [], sales := [], purchases := [],
    payments := [basePayment t a], nextId := 100 }

/-- A payment-update request changing only the amount. -/
def amountUpdateRequest (a2 : ℚ) : PaymentUpdateRequest :=
  { partyName := none, phoneNumber := none, amount := some a2, totalAmount := none, date := none }

/-- C4: creating a payment of amount `a` against the resolved canonical
party decreases the party's balance by exactly `a` for payment-in and
increases it by exactly `a` for payment-out. -/
theorem C4_payment_create_balance (b x y a : ℚ) (ha : 1 / 100 ≤ a) :
    partyBalanceOf
      (createPayment (baseStore b x y) ("PAY-1") (basePaymentRequest ("payment-in") a)).1 1
      = some (b - a) ∧
    partyBalanceOf
      (createPayment (baseStore b x y) ("PAY-1") (basePaymentRequest ("payment-out") a)).1 1
      = some (b + a) := by
  have hphone : strictPhoneValid ("+911234567890") = true := by decide
  have hsan : sanitizePhone ("+911234567890") = ("+911234567890") := by decide
  have hdate : validateDateFormat ("01/02/2024") = true := by decide
  have hlen : ("P1").length ≤ 100 := by decide
  have hpos : 0 < a := lt_of_lt_of_le (by norm_num) ha
  have ha0 : ¬ (a = 0) := ne_of_gt hpos
  have ha00 : 0 ≤ a := le_of_lt hpos
  have haInv : (100 : ℚ)⁻¹ ≤ a := by rw [← one_div]; exact ha
  constructor <;>
    simp [createPayment, createPaymentCore, newPaymentDoc, validPaymentRequest,
      basePaymentRequest, baseStore, baseParty, baseItem, baseBardana,
      findOrCreateParty, newPartyDoc, insertPayment, validPaymentDoc, presavePayment,
      updatePartyBalance, paymentOperation, updateBalance, findParty, saveParty,
      presaveParty, partyBalanceOf, List.find?,
      hphone, hsan, hdate, hlen, hpos, ha0, ha, haInv, ha00]

theorem C4_payment_create_balance_witness :
    ((1 : ℚ) / 100 ≤ 1) ∧
    (partyBalanceOf
      (createPayment (baseStore 7 0 0) ("PAY-1") (basePaymentRequest ("payment-in") 1)).1 1
      = some (7 - 1) ∧
    partyBalanceOf
      (createPayment (baseStore 7 0 0) ("PAY-1") (basePaymentRequest ("payment-out") 1)).1 1
      = some (7 + 1)) :=
  ⟨by norm_num, C4_payment_create_balance 7 0 0 1 (by norm_num)⟩

/-- C5: updating a stored payment's amount from `a` to `a2` first reverses
the original amount with the fixed add operation (regardless of payment
type) and then applies the new amount with the type-aware direction, so
the balance becomes b + a - a2 for payment-in and b + a + a2 for
payment-out; deleting a stored payment reverses its amount with the same
fixed add operation for both types and removes the document. -/
theorem C5_payment_update_delete_reversal (b a a2 : ℚ) (ha : 1 / 100 ≤ a)
    (ha2 : 1 / 100 ≤ a2) (hne : a ≠ a2) :
    (partyBalanceOf
        (updatePayment (paymentStore b ("payment-in") a) 50 (amountUpdateRequest a2)).1 1
        = some (b + a - a2) ∧
     partyBalanceOf
        (updatePayment (paymentStore b ("payment-out") a) 50 (amountUpdateRequest a2)).1 1
        = some (b + a + a2)) ∧
    (partyBalanceOf (deletePayment (paymentStore b ("payment-in") a) 50).1 1 = some (b + a) ∧
     partyBalanceOf (deletePayment (paymentStore b ("payment-out") a) 50).1 1 = some (b + a) ∧
     findPayment (deletePayment (paymentStore b ("payment-in") a) 50).1 50 = none) := by
  have hphone : strictPhoneValid ("+911234567890") = true := by decide
  have hsan : sanitizePhone ("+911234567890") = ("+911234567890") := by decide
  have hdate : validateDateFormat ("01/02/2024") = true := by decide
  have hlen : ("P1").length ≤ 100 := by decide
  have hpos : 0 < a := lt_of_lt_of_le (by norm_num) ha
  have ha0 : ¬ (a = 0) := ne_of_gt hpos
  have ha00 : 0 ≤ a := le_of_lt hpos
  have hpos2 : 0 < a2 := lt_of_lt_of_le (by norm_num) ha2
  have ha20 : ¬ (a2 = 0) := ne_of_gt hpos2
  have haInv : (100 : ℚ)⁻¹ ≤ a := by rw [← one_div]; exact ha
  have ha2Inv : (100 : ℚ)⁻¹ ≤ a2 := by rw [← one_div]; exact ha2
  refine ⟨⟨?_, ?_⟩, ?_, ?_, ?_⟩ <;>
    simp [updatePayment, paymentWithUpdates, paymentUpdateBalanceBlock, amountUpdateRequest,
      paymentStore, basePayment, baseParty, findPayment, resavePayment, validPaymentDoc,
      presavePayment, applyOptStr, updatePartyBalance, paymentOperation, updateBalance,
      findParty, saveParty, presaveParty, partyBalanceOf, List.find?, deletePayment,
      paymentDeleteReversal, saveItem,
      hphone, hsan, hdate, hlen, ha, ha2, haInv, ha2Inv, ha0, ha20, hne, ha00]

theorem C5_payment_update_delete_reversal_witness :
    ((1 : ℚ) / 100 ≤ 1 ∧ (1 : ℚ) / 100 ≤ 2 ∧ (1 : ℚ) ≠ 2) ∧
    ((partyBalanceOf
        (updatePayment (paymentStore 5 ("payment-in") 1) 50 (amountUpdateRequest 2)).1 1
        = some (5 + 1 - 2) ∧
     partyBalanceOf
        (updatePayment (paymentStore 5 ("payment-out") 1) 50 (amountUpdateRequest 2)).1 1
        = some (5 + 1 + 2)) ∧
    (partyBalanceOf (deletePayment (paymentStore 5 ("payment-in") 1) 50).1 1 = some (5 + 1) ∧
     partyBalanceOf (deletePayment (paymentStore 5 ("payment-out") 1) 50).1 1 = some (5 + 1) ∧
     findPayment (deletePayment (paymentStore 5 ("payment-in") 1) 50).1 50 = none)) :=
  ⟨by norm_num,
    C5_payment_update_delete_reversal 5 1 2 (by norm_num) (by norm_num) (by norm_num)⟩

/-- A canonical single line item referencing the canonical item. -/
def oneLine (q r t : ℚ) : SaleItem :=
  { id := 10, itemName := ("Rice"), quantity := q, rate := r, total := t }

/-- A stored single-line Sale of quantity `oldq` at rate `r1`. -/
def baseSaleDoc (oldq r1 : ℚ) : Sale :=
  { id := 50, invoiceNo := ("1"), partyName := ("P1"), phoneNumber := ("+911234567890"),
    items := [oneLine oldq r1 (oldq * r1)], totalAmount := oldq * r1,
    date := ("01/02/2024"), partyId := some 1 }

/-- A stored single-line Purchase of quantity `oldq` at rate `r1`. -/
def basePurchaseDoc (oldq r1 : ℚ) : Purchase :=
  { id := 50, billNo := ("B1"), partyName := ("P1"), phoneNumber := ("+911234567890"),
    items := [oneLine oldq r1 (oldq * r1)], totalAmount := oldq * r1,
    date := ("01/02/2024"), partyId := some 1 }

/-- Canonical store holding one stored Sale. -/
def saleDocStore (b x y oldq r1 : ℚ) : Store :=
  { parties := [baseParty b], items := [baseItem x, baseBardana y],
    sales := [baseSaleDoc oldq r1], purchases := [], payments := [], nextId := 100 }

/-- Canonical store holding one stored Purchase. -/
def purchaseDocStore (b x y oldq r1 : ℚ) : Store :=
  { parties := [baseParty b], items := [baseItem x, baseBardana y],
    sales := [], purchases := [basePurchaseDoc oldq r1], payments := [], nextId := 100 }

/-- A sale-update request replacing the item list with one new line. -/
def saleItemsUpdate (newq r2 t : ℚ) : SaleUpdateRequest :=
  { partyName := none, phoneNumber := none,
    items := some [oneLine newq r2 t],
    date := none }

/-- A purchase-update request replacing the item list with one new line. -/
def purchaseItemsUpdate (newq r2 t : ℚ) : PurchaseUpdateRequest :=
  { billNo := none, partyName := none, phoneNumber := none,
    items := some [oneLine newq r2 t],
    date := none }

/-- C6 counterexample: updating a stored 30 kg Sale line to 60 kg leaves
Bardana's stock unchanged at 10 bags — PUT /api/sales contains no Bardana
pass at all — whereas the claimed reverse-then-reapply of the total
kilograms would have produced 10 + 30/30 - 60/30 = 9. -/
theorem C6_update_counterexample :
    bardanaStockOf (updateSale (saleDocStore 0 10 10 30 1) 50 (saleItemsUpdate 60 1 60)).1
      = some 10 ∧
    (10 : ℚ) ≠ 10 + 30 / 30 - 60 / 30 := by
  have hphone : docPhoneValid ("+911234567890") = true := by decide
  have hsan : sanitizePhone ("+911234567890") = ("+911234567890") := by decide
  have hdate : validateDateFormat ("01/02/2024") = true := by decide
  have hlen : ("P1").length ≤ 100 := by decide
  constructor
  · simp [updateSale, saleWithUpdates, saleUpdateBalanceStep, saleUpdateStockPass,
      saleDocStore, baseSaleDoc, oneLine, saleItemsUpdate, baseParty, baseItem,
      baseBardana, findSale,
      resaveSale, validTxnDoc, validDocItems, presaveSaleFields, recalcItems,
      itemsGrandTotal, applyOptStr, updateBalance, findParty, saveParty, presaveParty,
      saleRestoreStockStep, saleCreateStockStep, findItem, saveItem, findBardana,
      totalKg, bardanaStockOf, List.find?,
      hphone, hsan, hdate, hlen]
  · norm_num

/-- C6 (amended): when an update changes a transaction's single-line item
list, the original per-item stock effect is reversed and the new effect
applied; for Purchase the reversal is a clamped subtract and Bardana is
then reconciled once by the net kilogram difference (clamped at 0); for
Sale the reversal is an unclamped add followed by a clamped subtract of the
new quantity, and Bardana is not adjusted at all. The no-clamp hypotheses
keep each clamp inactive so the effects are the stated exact values. -/
theorem C6_update_stock_passes (b x y oldq r1 newq r2 t : ℚ)
    (hoq : 0 ≤ oldq) (hr1 : 0 ≤ r1) (hnq : 0 ≤ newq) (hr2 : 0 ≤ r2) (ht : 0 ≤ t)
    (hne : newq ≠ oldq) (htot : oldq * r1 ≠ newq * r2)
    (hxs : ¬ (x + oldq / 30 - newq / 30 < 0))
    (hxp : ¬ (x - oldq / 30 < 0))
    (hb : ¬ (y + (newq - oldq) / 30 < 0)) :
    (itemStockOf (updateSale (saleDocStore b x y oldq r1) 50 (saleItemsUpdate newq r2 t)).1 10
      = some (x + oldq / 30 - newq / 30) ∧
     bardanaStockOf (updateSale (saleDocStore b x y oldq r1) 50 (saleItemsUpdate newq r2 t)).1
      = some y) ∧
    (itemStockOf
        (updatePurchase (purchaseDocStore b x y oldq r1) 50 (purchaseItemsUpdate newq r2 t)).1 10
      = some (x - oldq / 30 + newq / 30) ∧
     bardanaStockOf
        (updatePurchase (purchaseDocStore b x y oldq r1) 50 (purchaseItemsUpdate newq r2 t)).1
      = some (y + (newq - oldq) / 30)) := by
  have hphone : docPhoneValid ("+911234567890") = true := by decide
  have hsan : sanitizePhone ("+911234567890") = ("+911234567890") := by decide
  have hdate : validateDateFormat ("01/02/2024") = true := by decide
  have hlen : ("P1").length ≤ 100 := by decide
  have hoqr : 0 ≤ oldq * r1 := mul_nonneg hoq hr1
  refine ⟨⟨?_, ?_⟩, ?_, ?_⟩ <;>
    simp [updateSale, saleWithUpdates, saleUpdateBalanceStep, saleUpdateStockPass,
      updatePurchase, purchaseDupCheck, purchaseWithUpdates, purchaseUpdateBalanceStep,
      purchaseUpdateStockPass, purchaseUpdateBardana,
      saleDocStore, purchaseDocStore, baseSaleDoc, basePurchaseDoc, oneLine,
      saleItemsUpdate, purchaseItemsUpdate,
      baseParty, baseItem, baseBardana, findSale, findPurchase,
      resaveSale, resavePurchase, validTxnDoc, validDocItems, presaveSaleFields,
      recalcItems, itemsGrandTotal, applyOptStr, updateBalance, findParty, saveParty,
      presaveParty, saleRestoreStockStep, saleCreateStockStep,
      purchaseReverseStockStep, purchaseCreateStockStep, findItem, saveItem, findBardana,
      totalKg, itemStockOf, bardanaStockOf, List.find?,
      hphone, hsan, hdate, hlen, hoq, hr1, hnq, hr2, ht, hne, htot, hoqr, hxs, hxp, hb]

theorem C6_update_stock_passes_witness :
    ((0 : ℚ) ≤ 30 ∧ (0 : ℚ) ≤ 1 ∧ (0 : ℚ) ≤ 60 ∧ (60 : ℚ) ≠ 30 ∧
      (30 : ℚ) * 1 ≠ 60 * 1 ∧ ¬ ((10 : ℚ) + 30 / 30 - 60 / 30 < 0) ∧
      ¬ ((10 : ℚ) - 30 / 30 < 0) ∧ ¬ ((10 : ℚ) + (60 - 30) / 30 < 0)) ∧
    ((itemStockOf (updateSale (saleDocStore 0 10 10 30 1) 50 (saleItemsUpdate 60 1 60)).1 10
      = some (10 + 30 / 30 - 60 / 30) ∧
     bardanaStockOf (updateSale (saleDocStore 0 10 10 30 1) 50 (saleItemsUpdate 60 1 60)).1
      = some 10) ∧
    (itemStockOf
        (updatePurchase (purchaseDocStore 0 10 10 30 1) 50 (purchaseItemsUpdate 60 1 60)).1 10
      = some (10 - 30 / 30 + 60 / 30) ∧
     bardanaStockOf
        (updatePurchase (purchaseDocStore 0 10 10 30 1) 50 (purchaseItemsUpdate 60 1 60)).1
      = some (10 + (60 - 30) / 30))) :=
  ⟨by norm_num,
    C6_update_stock_passes 0 10 10 30 1 60 1 60 (by norm_num) (by norm_num) (by norm_num)
      (by norm_num) (by norm_num) (by norm_num) (by norm_num) (by norm_num) (by norm_num)
      (by norm_num)⟩

/-- A purchase-creation request whose bill number collides with the stored
canonical Purchase. -/
def c8Request : PurchaseRequest :=
  { billNo := ("B1"), partyName := ("P1"), phoneNumber := ("+911234567890"),
    items := [oneLine 30 1 30], date := ("01/02/2024"), totalAmount := 0 }

/-- C8: creating a Purchase whose bill number already exists leaves the
store untouched (no Party created or mutated, no stock changed, no
Purchase persisted), and — when the request passes the middleware
validation — the outcome is the Conflict rejection. -/
theorem C8_duplicate_billNo_conflict (s : Store) (req : PurchaseRequest)
    (hdup : isBillNumberExists s (trimStr req.billNo) = true) :
    (createPurchase s req).1 = s ∧
    (validPurchaseRequest req = true → createPurchase s req = (s, .error .conflict)) := by
  unfold createPurchase
  cases hv : validPurchaseRequest req
  · simp [hv]
  · simp [hv, hdup]

theorem C8_duplicate_billNo_conflict_witness :
    isBillNumberExists (purchaseDocStore 3 4 5 30 2) (trimStr c8Request.billNo) = true ∧
    ((createPurchase (purchaseDocStore 3 4 5 30 2) c8Request).1 = purchaseDocStore 3 4 5 30 2 ∧
     (validPurchaseRequest c8Request = true →
        createPurchase (purchaseDocStore 3 4 5 30 2) c8Request
          = (purchaseDocStore 3 4 5 30 2, .error .conflict))) :=
  ⟨by decide, C8_duplicate_billNo_conflict (purchaseDocStore 3 4 5 30 2) c8Request (by decide)⟩

/-- C10 counterexample: PATCH /api/parties/:id/balance with the unknown
operation multiply is rejected with a 400-class validation error before
`Party.updateBalance` is reached — it does not report success. -/
theorem C10_patch_unknown_op_counterexample :
    patchPartyBalance (baseStore 0 0 0) 1 (some 5) ("multiply")
      = (baseStore 0 0 0, .error .invalidInput) := rfl

/-- C10 (amended): `Party.updateBalance` with a resolved party and any
operation other than add, subtract or set completes without error and
re-saves the party with its balance unchanged (only the phone-number
pre-save sanitisation applies); but PATCH /api/parties/:id/balance
validates the operation against the allow-list and rejects such an
operation with a 400-class error before `Party.updateBalance` is called,
so the route does not report success. -/
theorem C10_unknown_operation (s : Store) (pid : Nat) (amt : ℚ) (op : String) (p : Party)
    (hop : op ≠ ("add") ∧ op ≠ ("subtract") ∧ op ≠ ("set"))
    (hfind : findParty s pid = some p) :
    updateBalance s pid amt op = .ok (saveParty s (presaveParty p), presaveParty p) ∧
    (presaveParty p).balance = p.balance ∧
    (op ≠ ("") → patchPartyBalance s pid (some amt) op = (s, .error .invalidInput)) := by
  obtain ⟨h1, h2, h3⟩ := hop
  refine ⟨?_, rfl, ?_⟩
  · unfold updateBalance
    rw [hfind]
    simp [if_neg h1, if_neg h2, if_neg h3]
  · intro hne
    unfold patchPartyBalance
    have hmem : (op == ("add") || op == ("subtract") || op == ("set")) = false := by
      simp [h1, h2, h3]
    simp [if_neg hne, hmem]

theorem C10_unknown_operation_witness :
    (("multiply" : String) ≠ ("add") ∧ ("multiply" : String) ≠ ("subtract") ∧
      ("multiply" : String) ≠ ("set")) ∧
    findParty (baseStore 0 0 0) 1 = some (baseParty 0) ∧
    (updateBalance (baseStore 0 0 0) 1 5 ("multiply")
        = .ok (saveParty (baseStore 0 0 0) (presaveParty (baseParty 0)),
            presaveParty (baseParty 0)) ∧
      (presaveParty (baseParty 0)).balance = (baseParty 0).balance ∧
      (("multiply" : String) ≠ ("") →
        patchPartyBalance (baseStore 0 0 0) 1 (some 5) ("multiply")
          = (baseStore 0 0 0, .error .invalidInput))) :=
  ⟨by decide, by decide, C10_unknown_operation (baseStore 0 0 0) 1 5 ("multiply") (baseParty 0)
    (by decide) (by decide)⟩

/-! ## C9: every balance mutation of the routes, by mechanism -/

/-- Whether an operation is the one route that assigns the balance field
directly: PUT /api/parties with a `balance` value in the body. -/
def Op.isDirectBalanceAssign : Op → Bool
  | .partyUpdate _ req => req.balance.isSome
  | _ => false

theorem saleCreateBalanceWrites_via (s : Store) (req : SaleRequest) :
    ∀ w ∈ saleCreateBalanceWrites s req, w.isVia = true := by
  intro w hw
  unfold saleCreateBalanceWrites at hw
  repeat' split at hw
  all_goals simp_all [BalanceWrite.isVia]

theorem saleUpdateBalanceWrites_via (s : Store) (sid : Nat) (req : SaleUpdateRequest) :
    ∀ w ∈ saleUpdateBalanceWrites s sid req, w.isVia = true := by
  intro w hw
  unfold saleUpdateBalanceWrites at hw
  repeat' split at hw
  all_goals simp_all [BalanceWrite.isVia]

theorem saleDeleteBalanceWrites_via (s : Store) (sid : Nat) :
    ∀ w ∈ saleDeleteBalanceWrites s sid, w.isVia = true := by
  intro w hw
  unfold saleDeleteBalanceWrites at hw
  repeat' split at hw
  all_goals simp_all [BalanceWrite.isVia]

theorem purchaseCreateBalanceWrites_via (s : Store) (req : PurchaseRequest) :
    ∀ w ∈ purchaseCreateBalanceWrites s req, w.isVia = true := by
  intro w hw
  unfold purchaseCreateBalanceWrites at hw
  repeat' split at hw
  all_goals simp_all [BalanceWrite.isVia]

theorem purchaseUpdateBalanceWrites_via (s : Store) (pid : Nat) (req : PurchaseUpdateRequest) :
    ∀ w ∈ purchaseUpdateBalanceWrites s pid req, w.isVia = true := by
  intro w hw
  unfold purchaseUpdateBalanceWrites at hw
  repeat' split at hw
  all_goals simp_all [BalanceWrite.isVia]

theorem purchaseDeleteBalanceWrites_via (p : Purchase) :
    ∀ w ∈ purchaseDeleteBalanceWrites p, w.isVia = true := by
  intro w hw
  unfold purchaseDeleteBalanceWrites at hw
  split at hw
  all_goals simp_all [BalanceWrite.isVia]

theorem bulkDeleteLoopBalanceWrites_via (ps : List Purchase) (s : Store) :
    ∀ w ∈ bulkDeleteLoopBalanceWrites s ps, w.isVia = true := by
  induction ps generalizing s with
  | nil => intro w hw; simp [bulkDeleteLoopBalanceWrites] at hw
  | cons p rest ih =>
      intro w hw
      unfold bulkDeleteLoopBalanceWrites at hw
      split at hw
      · rcases List.mem_append.mp hw with h | h
        · exact purchaseDeleteBalanceWrites_via p w h
        · exact ih _ w h
      · exact purchaseDeleteBalanceWrites_via p w hw

theorem paymentCreateBalanceWrites_via (s : Store) (paymentNo : String) (req : PaymentRequest) :
    ∀ w ∈ paymentCreateBalanceWrites s paymentNo req, w.isVia = true := by
  intro w hw
  unfold paymentCreateBalanceWrites at hw
  repeat' split at hw
  all_goals simp_all [BalanceWrite.isVia]

theorem paymentUpdateBalanceWrites_via (s : Store) (pmid : Nat) (req : PaymentUpdateRequest) :
    ∀ w ∈ paymentUpdateBalanceWrites s pmid req, w.isVia = true := by
  intro w hw
  unfold paymentUpdateBalanceWrites at hw
  repeat' split at hw
  all_goals try simp_all [BalanceWrite.isVia]
  all_goals (rcases hw with rfl | rfl <;> rfl)

theorem paymentDeleteBalanceWrites_via (s : Store) (pmid : Nat) :
    ∀ w ∈ paymentDeleteBalanceWrites s pmid, w.isVia = true := by
  intro w hw
  unfold paymentDeleteBalanceWrites at hw
  repeat' split at hw
  all_goals simp_all [BalanceWrite.isVia]

theorem partyBalancePatchBalanceWrites_via (pid : Nat) (amount : Option ℚ) (operation : String) :
    ∀ w ∈ partyBalancePatchBalanceWrites pid amount operation, w.isVia = true := by
  intro w hw
  unfold partyBalancePatchBalanceWrites at hw
  repeat' split at hw
  all_goals simp_all [BalanceWrite.isVia]

/-- The party-update request the C9 counterexample uses: only a balance
value. -/
def balOnlyRequest : PartyUpdateRequest :=
  { name := none, phoneNumber := none, balance := some 5 }

/-- C9 counterexample: PUT /api/parties with a balance in the body mutates
the stored party's balance by a direct field assignment, not through
`Party.updateBalance` — so not every balance mutation routes through the
single point of truth. -/
theorem C9_direct_assign_counterexample :
    ((opBalanceWrites (baseStore 0 0 0) (.partyUpdate 1 balOnlyRequest)).all
      BalanceWrite.isVia) = false := by decide

/-- C9 (amended): every lifecycle operation that changes an existing
Party's balance performs the change through `Party.updateBalance`, with the
single exception of PUT /api/parties carrying a `balance` field, which
assigns the field directly. -/
theorem C9_balance_writes_via_updateBalance (s : Store) (op : Op)
    (h : op.isDirectBalanceAssign = false) :
    (opBalanceWrites s op).all BalanceWrite.isVia = true := by
  rw [List.all_eq_true]
  cases op with
  | saleCreate req => exact saleCreateBalanceWrites_via s req
  | saleUpdate sid req => exact saleUpdateBalanceWrites_via s sid req
  | saleDelete sid => exact saleDeleteBalanceWrites_via s sid
  | purchaseCreate req => exact purchaseCreateBalanceWrites_via s req
  | purchaseUpdate pid req => exact purchaseUpdateBalanceWrites_via s pid req
  | purchaseDelete pid =>
      intro w hw
      simp only [opBalanceWrites] at hw
      split at hw
      · simp at hw
      · exact purchaseDeleteBalanceWrites_via _ w hw
  | purchaseBulkDelete ids =>
      intro w hw
      simp only [opBalanceWrites] at hw
      split at hw
      · simp at hw
      · exact bulkDeleteLoopBalanceWrites_via _ _ w hw
  | itemCreate req => intro w hw; simp [opBalanceWrites] at hw
  | itemUpdate iid req => intro w hw; simp [opBalanceWrites] at hw
  | itemDelete iid => intro w hw; simp [opBalanceWrites] at hw
  | bardanaStockUpdate operation quantity => intro w hw; simp [opBalanceWrites] at hw
  | paymentCreate paymentNo req => exact paymentCreateBalanceWrites_via s paymentNo req
  | paymentUpdate pmid req => exact paymentUpdateBalanceWrites_via s pmid req
  | paymentDelete pmid => exact paymentDeleteBalanceWrites_via s pmid
  | partyBalancePatch pid amount operation =>
      exact partyBalancePatchBalanceWrites_via pid amount operation
  | partyUpdate pid req =>
      intro w hw
      simp only [opBalanceWrites] at hw
      unfold partyUpdateBalanceWrites at hw
      cases hbal : req.balance with
      | some b => simp [Op.isDirectBalanceAssign, hbal] at h
      | none =>
          rw [hbal] at hw
          repeat' split at hw
          all_goals simp_all

theorem C9_balance_writes_via_updateBalance_witness :
    (Op.isDirectBalanceAssign (.saleDelete 50) = false) ∧
    (opBalanceWrites (saleDocStore 0 10 10 30 1) (.saleDelete 50)).all
      BalanceWrite.isVia = true :=
  ⟨by decide, C9_balance_writes_via_updateBalance (saleDocStore 0 10 10 30 1)
    (.saleDelete 50) (by decide)⟩

/-! ## C7: the opening-stock nonnegativity invariant -/

/-- Every stored Item's opening stock is nonnegative. -/
def itemsNonneg (s : Store) : Prop := ∀ i ∈ s.items, 0 ≤ i.openingStock

/-- Every stored Sale and Purchase line quantity is nonnegative — the
schema min-0 validators enforce this for every persisted document, and the
restore passes of update and delete rely on it. -/
def linesNonneg (s : Store) : Prop :=
  (∀ sa ∈ s.sales, ∀ l ∈ sa.items, 0 ≤ l.quantity) ∧
  (∀ p ∈ s.purchases, ∀ l ∈ p.items, 0 ≤ l.quantity)

/-- The stock invariant the lifecycle operations preserve. -/
def StockInv (s : Store) : Prop := itemsNonneg s ∧ linesNonneg s

theorem itemsNonneg_saveItem {s : Store} {i : Item} (h : itemsNonneg s)
    (hi : 0 ≤ i.openingStock) : itemsNonneg (saveItem s i) := by
  intro j hj
  obtain ⟨q, hq, rfl⟩ := List.mem_map.mp hj
  split
  · exact hi
  · exact h q hq

theorem StockInv_saveItem {s : Store} {i : Item} (h : StockInv s)
    (hi : 0 ≤ i.openingStock) : StockInv (saveItem s i) :=
  ⟨itemsNonneg_saveItem h.1 hi, h.2⟩

theorem StockInv_saveParty {s : Store} {p : Party} (h : StockInv s) :
    StockInv (saveParty s p) := h

theorem updateBalance_StockInv {s t : Store} {pid : Nat} {a : ℚ} {op : String} {p : Party}
    (heq : updateBalance s pid a op = .ok (t, p)) (h : StockInv s) : StockInv t := by
  unfold updateBalance at heq
  cases hf : findParty s pid with
  | none => rw [hf] at heq; exact absurd heq (by simp)
  | some q =>
      rw [hf] at heq
      simp only [Except.ok.injEq, Prod.mk.injEq] at heq
      rw [← heq.1]
      exact StockInv_saveParty h

theorem clamped_nonneg (st : ℚ) : 0 ≤ (if st < 0 then 0 else st) := by
  split
  · exact le_refl 0
  · exact le_of_not_lt (by assumption)

theorem StockInv_saleCreateStockStep {s : Store} (l : SaleItem) (h : StockInv s) :
    StockInv (saleCreateStockStep s l) := by
  unfold saleCreateStockStep
  cases findItem s l.id with
  | none => exact h
  | some item => exact StockInv_saveItem h (clamped_nonneg _)

theorem StockInv_purchaseReverseStockStep {s : Store} (l : SaleItem) (h : StockInv s) :
    StockInv (purchaseReverseStockStep s l) := by
  unfold purchaseReverseStockStep
  cases findItem s l.id with
  | none => exact h
  | some item => exact StockInv_saveItem h (clamped_nonneg _)

theorem StockInv_saleRestoreStockStep {s : Store} {l : SaleItem} (h : StockInv s)
    (hq : 0 ≤ l.quantity) : StockInv (saleRestoreStockStep s l) := by
  unfold saleRestoreStockStep
  cases hf : findItem s l.id with
  | none => exact h
  | some item =>
      have hmem : item ∈ s.items := List.mem_of_find?_eq_some hf
      exact StockInv_saveItem h
        (add_nonneg (h.1 item hmem) (div_nonneg hq (by norm_num)))

theorem StockInv_purchaseCreateStockStep {s : Store} {l : SaleItem} (h : StockInv s)
    (hq : 0 ≤ l.quantity) : StockInv (purchaseCreateStockStep s l) := by
  unfold purchaseCreateStockStep
  cases hf : findItem s l.id with
  | none => exact h
  | some item =>
      have hmem : item ∈ s.items := List.mem_of_find?_eq_some hf
      exact StockInv_saveItem h
        (add_nonneg (h.1 item hmem) (div_nonneg hq (by norm_num)))

theorem totalKg_nonneg {lines : List SaleItem} (h : ∀ l ∈ lines, 0 ≤ l.quantity) :
    0 ≤ totalKg lines := by
  unfold totalKg
  apply List.sum_nonneg
  intro q hq
  obtain ⟨l, hl, rfl⟩ := List.mem_map.mp hq
  exact h l hl

theorem StockInv_saleCreateBardana {s : Store} (lines : List SaleItem) (h : StockInv s) :
    StockInv (saleCreateBardana s lines) := by
  unfold saleCreateBardana
  cases findBardana s with
  | none => exact h
  | some b => exact StockInv_saveItem h (clamped_nonneg _)

theorem StockInv_purchaseReverseBardana {s : Store} (lines : List SaleItem) (h : StockInv s) :
    StockInv (purchaseReverseBardana s lines) := by
  unfold purchaseReverseBardana
  cases findBardana s with
  | none => exact h
  | some b => exact StockInv_saveItem h (clamped_nonneg _)

theorem StockInv_purchaseUpdateBardana {s : Store} (olds news : List SaleItem)
    (h : StockInv s) : StockInv (purchaseUpdateBardana s olds news) := by
  unfold purchaseUpdateBardana
  cases findBardana s with
  | none => exact h
  | some b => exact StockInv_saveItem h (clamped_nonneg _)

theorem StockInv_saleRestoreBardana {s : Store} {lines : List SaleItem} (h : StockInv s)
    (hq : ∀ l ∈ lines, 0 ≤ l.quantity) : StockInv (saleRestoreBardana s lines) := by
  unfold saleRestoreBardana
  cases hf : findBardana s with
  | none => exact h
  | some b =>
      have hmem : b ∈ s.items := List.mem_of_find?_eq_some hf
      exact StockInv_saveItem h
        (add_nonneg (h.1 b hmem) (div_nonneg (totalKg_nonneg hq) (by norm_num)))

theorem StockInv_purchaseCreateBardana {s : Store} {lines : List SaleItem} (h : StockInv s)
    (hq : ∀ l ∈ lines, 0 ≤ l.quantity) : StockInv (purchaseCreateBardana s lines) := by
  unfold purchaseCreateBardana
  cases hf : findBardana s with
  | none => exact h
  | some b =>
      have hmem : b ∈ s.items := List.mem_of_find?_eq_some hf
      exact StockInv_saveItem h
        (add_nonneg (h.1 b hmem) (div_nonneg (totalKg_nonneg hq) (by norm_num)))

theorem StockInv_foldl_saleCreateStockStep {s : Store} (lines : List SaleItem)
    (h : StockInv s) : StockInv (lines.foldl saleCreateStockStep s) := by
  induction lines generalizing s with
  | nil => exact h
  | cons l ls ih => exact ih (StockInv_saleCreateStockStep l h)

theorem StockInv_foldl_purchaseReverseStockStep {s : Store} (lines : List SaleItem)
    (h : StockInv s) : StockInv (lines.foldl purchaseReverseStockStep s) := by
  induction lines generalizing s with
  | nil => exact h
  | cons l ls ih => exact ih (StockInv_purchaseReverseStockStep l h)

theorem StockInv_foldl_saleRestoreStockStep {s : Store} {lines : List SaleItem}
    (h : StockInv s) (hq : ∀ l ∈ lines, 0 ≤ l.quantity) :
    StockInv (lines.foldl saleRestoreStockStep s) := by
  induction lines generalizing s with
  | nil => exact h
  | cons l ls ih =>
      exact ih (StockInv_saleRestoreStockStep h (hq l (List.mem_cons_self l ls)))
        (fun x hx => hq x (List.mem_cons_of_mem l hx))

theorem StockInv_foldl_purchaseCreateStockStep {s : Store} {lines : List SaleItem}
    (h : StockInv s) (hq : ∀ l ∈ lines, 0 ≤ l.quantity) :
    StockInv (lines.foldl purchaseCreateStockStep s) := by
  induction lines generalizing s with
  | nil => exact h
  | cons l ls ih =>
      exact ih (StockInv_purchaseCreateStockStep h (hq l (List.mem_cons_self l ls)))
        (fun x hx => hq x (List.mem_cons_of_mem l hx))

theorem validDocItems_quantity {items : List SaleItem} (h : validDocItems items = true) :
    ∀ l ∈ items, 0 ≤ l.quantity := by
  intro l hl
  unfold validDocItems at h
  have := List.all_eq_true.mp h l hl
  simp only [Bool.and_eq_true, decide_eq_true_eq] at this
  exact this.1.1.2

theorem validTxnDoc_quantity {idf pn ph : String} {items : List SaleItem} {t : ℚ} {d : String}
    (h : validTxnDoc idf pn ph items t d = true) : ∀ l ∈ items, 0 ≤ l.quantity := by
  unfold validTxnDoc at h
  simp only [Bool.and_eq_true] at h
  exact validDocItems_quantity h.1.1.2

theorem presaveSaleFields_quantity {ph : String} {items : List SaleItem} {t : ℚ}
    (h : ∀ l ∈ items, 0 ≤ l.quantity) :
    ∀ l ∈ (presaveSaleFields ph items t).2.1, 0 ≤ l.quantity := by
  unfold presaveSaleFields
  split
  · exact h
  · intro l hl
    obtain ⟨it, hit, rfl⟩ := List.mem_map.mp hl
    exact h it hit

theorem insertSale_StockInv {s t : Store} {sale : Sale} {r : Except ApiError Sale}
    (heq : insertSale s sale = (t, r)) (h : StockInv s) : StockInv t := by
  unfold insertSale at heq
  split at heq
  · rename_i hv
    rcases hps : presaveSaleFields sale.phoneNumber sale.items sale.totalAmount
      with ⟨ph, its, tot⟩
    rw [hps] at heq
    simp only [Prod.mk.injEq] at heq
    rw [← heq.1]
    refine ⟨h.1, ?_, h.2.2⟩
    intro sa hsa
    rcases List.mem_append.mp hsa with hold | hnew
    · exact h.2.1 sa hold
    · have hone : sa = { sale with phoneNumber := ph, items := its, totalAmount := tot } := by
        simpa using hnew
      subst hone
      have hqs : ∀ l ∈ its, 0 ≤ l.quantity := by
        have := @presaveSaleFields_quantity sale.phoneNumber sale.items
          sale.totalAmount (validTxnDoc_quantity hv)
        rw [hps] at this
        exact this
      exact hqs
  · simp only [Prod.mk.injEq] at heq
    rw [← heq.1]
    exact h

theorem resaveSale_StockInv {s t : Store} {sale : Sale} {r : Except ApiError Sale}
    (heq : resaveSale s sale = (t, r)) (h : StockInv s) : StockInv t := by
  unfold resaveSale at heq
  split at heq
  · rename_i hv
    rcases hps : presaveSaleFields sale.phoneNumber sale.items sale.totalAmount
      with ⟨ph, its, tot⟩
    rw [hps] at heq
    simp only [Prod.mk.injEq] at heq
    rw [← heq.1]
    refine ⟨h.1, ?_, h.2.2⟩
    intro sa hsa
    obtain ⟨x, hx, hxeq⟩ := List.mem_map.mp hsa
    by_cases hid : (x.id == sale.id) = true
    · rw [if_pos hid] at hxeq
      subst hxeq
      have hqs : ∀ l ∈ its, 0 ≤ l.quantity := by
        have := @presaveSaleFields_quantity sale.phoneNumber sale.items
          sale.totalAmount (validTxnDoc_quantity hv)
        rw [hps] at this
        exact this
      exact hqs
    · rw [if_neg hid] at hxeq
      subst hxeq
      exact h.2.1 x hx
  · simp only [Prod.mk.injEq] at heq
    rw [← heq.1]
    exact h

theorem insertPurchase_StockInv {s t : Store} {purchase : Purchase}
    {r : Except ApiError Purchase}
    (heq : insertPurchase s purchase = (t, r)) (h : StockInv s) : StockInv t := by
  unfold insertPurchase at heq
  split at heq
  · rename_i hv
    rcases hps : presaveSaleFields purchase.phoneNumber purchase.items purchase.totalAmount
      with ⟨ph, its, tot⟩
    rw [hps] at heq
    simp only [Prod.mk.injEq] at heq
    rw [← heq.1]
    refine ⟨h.1, h.2.1, ?_⟩
    intro pa hpa
    rcases List.mem_append.mp hpa with hold | hnew
    · exact h.2.2 pa hold
    · have hone : pa = { purchase with phoneNumber := ph, items := its, totalAmount := tot } := by
        simpa using hnew
      subst hone
      have hqs : ∀ l ∈ its, 0 ≤ l.quantity := by
        have := @presaveSaleFields_quantity purchase.phoneNumber purchase.items
          purchase.totalAmount (validTxnDoc_quantity hv)
        rw [hps] at this
        exact this
      exact hqs
  · simp only [Prod.mk.injEq] at heq
    rw [← heq.1]
    exact h

theorem resavePurchase_StockInv {s t : Store} {purchase : Purchase}
    {r : Except ApiError Purchase}
    (heq : resavePurchase s purchase = (t, r)) (h : StockInv s) : StockInv t := by
  unfold resavePurchase at heq
  split at heq
  · rename_i hv
    rcases hps : presaveSaleFields purchase.phoneNumber purchase.items purchase.totalAmount
      with ⟨ph, its, tot⟩
    rw [hps] at heq
    simp only [Prod.mk.injEq] at heq
    rw [← heq.1]
    refine ⟨h.1, h.2.1, ?_⟩
    intro pa hpa
    obtain ⟨x, hx, hxeq⟩ := List.mem_map.mp hpa
    by_cases hid : (x.id == purchase.id) = true
    · rw [if_pos hid] at hxeq
      subst hxeq
      have hqs : ∀ l ∈ its, 0 ≤ l.quantity := by
        have := @presaveSaleFields_quantity purchase.phoneNumber purchase.items
          purchase.totalAmount (validTxnDoc_quantity hv)
        rw [hps] at this
        exact this
      exact hqs
    · rw [if_neg hid] at hxeq
      subst hxeq
      exact h.2.2 x hx
  · simp only [Prod.mk.injEq] at heq
    rw [← heq.1]
    exact h

theorem insertPayment_StockInv {s t : Store} {p : Payment} {r : Except ApiError Payment}
    (heq : insertPayment s p = (t, r)) (h : StockInv s) : StockInv t := by
  unfold insertPayment at heq
  split at heq <;> simp only [Prod.mk.injEq] at heq <;> rw [← heq.1] <;> exact h

theorem resavePayment_StockInv {s t : Store} {p : Payment} {r : Except ApiError Payment}
    (heq : resavePayment s p = (t, r)) (h : StockInv s) : StockInv t := by
  unfold resavePayment at heq
  split at heq <;> simp only [Prod.mk.injEq] at heq <;> rw [← heq.1] <;> exact h

theorem findOrCreateParty_StockInv {s t : Store} {name phone : String} {p : Party}
    (heq : findOrCreateParty s name phone = .ok (t, p)) (h : StockInv s) : StockInv t := by
  unfold findOrCreateParty at heq
  split at heq
  · simp only [Except.ok.injEq, Prod.mk.injEq] at heq
    rw [← heq.1]
    exact h
  · split at heq
    · simp only [Except.ok.injEq, Prod.mk.injEq] at heq
      rw [← heq.1]
      exact h
    · exact absurd heq (by simp)

theorem StockInv_filterSales {s : Store} (f : Sale → Bool) (h : StockInv s) :
    StockInv { s with sales := s.sales.filter f } :=
  ⟨h.1, fun sa hsa => h.2.1 sa (List.mem_of_mem_filter hsa), h.2.2⟩

theorem StockInv_filterPurchases {s : Store} (f : Purchase → Bool) (h : StockInv s) :
    StockInv { s with purchases := s.purchases.filter f } :=
  ⟨h.1, h.2.1, fun pa hpa => h.2.2 pa (List.mem_of_mem_filter hpa)⟩

theorem StockInv_filterPayments {s : Store} (f : Payment → Bool) (h : StockInv s) :
    StockInv { s with payments := s.payments.filter f } := h

theorem StockInv_filterItems {s : Store} (f : Item → Bool) (h : StockInv s) :
    StockInv { s with items := s.items.filter f } :=
  ⟨fun i hi => h.1 i (List.mem_of_mem_filter hi), h.2⟩

theorem StockInv_bumpNextId {s : Store} (h : StockInv s) :
    StockInv { s with nextId := s.nextId + 1 } := h

end Billing

namespace Billing

theorem createSale_StockInv (s : Store) (req : SaleRequest) (h : StockInv s) :
    StockInv (createSale s req).1 := by
  unfold createSale
  split
  · exact h
  · split
    · exact h
    · split
      · exact h
      · rename_i s1 party hfoc
        have h1 : StockInv s1 := findOrCreateParty_StockInv hfoc h
        split
        · exact h1
        · rename_i s2 saleP hins
          have h2 : StockInv s2 := insertSale_StockInv hins (StockInv_bumpNextId h1)
          split
          · exact h2
          · rename_i s3 pty hbal
            exact StockInv_saleCreateBardana _
              (StockInv_foldl_saleCreateStockStep _ (updateBalance_StockInv hbal h2))

theorem saleUpdateBalanceStep_StockInv {s1 s2 : Store} {t0 : ℚ} {sale : Sale}
    (heq : saleUpdateBalanceStep s1 t0 sale = .ok s2) (h : StockInv s1) : StockInv s2 := by
  unfold saleUpdateBalanceStep at heq
  split at heq
  · split at heq
    · split at heq
      · exact absurd heq (by simp)
      · rename_i tp hbal
        simp only [Except.ok.injEq] at heq
        rw [← heq]
        exact updateBalance_StockInv hbal h
    · simp only [Except.ok.injEq] at heq
      rw [← heq]
      exact h
  · simp only [Except.ok.injEq] at heq
    rw [← heq]
    exact h

theorem saleUpdateStockPass_StockInv {s2 : Store} {originalItems : List SaleItem}
    {reqItems : Option (List SaleItem)} (h : StockInv s2)
    (hq : ∀ l ∈ originalItems, 0 ≤ l.quantity) :
    StockInv (saleUpdateStockPass s2 originalItems reqItems) := by
  unfold saleUpdateStockPass
  split
  · split
    · exact StockInv_foldl_saleCreateStockStep _
        (StockInv_foldl_saleRestoreStockStep h hq)
    · exact h
  · exact h

theorem updateSale_StockInv (s : Store) (sid : Nat) (req : SaleUpdateRequest)
    (h : StockInv s) : StockInv (updateSale s sid req).1 := by
  unfold updateSale
  split
  · exact h
  · rename_i sale0 hfind
    have hmem : sale0 ∈ s.sales := List.mem_of_find?_eq_some hfind
    have hq := h.2.1 sale0 hmem
    split
    · exact h
    · rename_i s1 sale hres
      have h1 : StockInv s1 := resaveSale_StockInv hres h
      split
      · exact h1
      · rename_i s2 hbal
        exact saleUpdateStockPass_StockInv (saleUpdateBalanceStep_StockInv hbal h1) hq

theorem saleDeleteBalanceStep_StockInv {s2 t : Store} {sale : Sale}
    {r : Except ApiError Unit}
    (heq : saleDeleteBalanceStep s2 sale = (t, r)) (h : StockInv s2) : StockInv t := by
  unfold saleDeleteBalanceStep at heq
  split at heq
  · split at heq
    · simp only [Prod.mk.injEq] at heq
      rw [← heq.1]
      exact h
    · rename_i tp hbal
      simp only [Prod.mk.injEq] at heq
      rw [← heq.1]
      exact updateBalance_StockInv hbal h
  · simp only [Prod.mk.injEq] at heq
    rw [← heq.1]
    exact h

theorem deleteSale_StockInv (s : Store) (sid : Nat) (h : StockInv s) :
    StockInv (deleteSale s sid).1 := by
  unfold deleteSale
  split
  · exact h
  · rename_i sale hfind
    have hmem : sale ∈ s.sales := List.mem_of_find?_eq_some hfind
    have hq := h.2.1 sale hmem
    split
    · rename_i s2 e hstep
      exact saleDeleteBalanceStep_StockInv hstep
        (StockInv_saleRestoreBardana (StockInv_foldl_saleRestoreStockStep h hq) hq)
    · rename_i s3 u hstep
      exact StockInv_filterSales _
        (saleDeleteBalanceStep_StockInv hstep
          (StockInv_saleRestoreBardana (StockInv_foldl_saleRestoreStockStep h hq) hq))

end Billing

namespace Billing

theorem validPurchaseRequest_quantity {req : PurchaseRequest}
    (h : validPurchaseRequest req = true) : ∀ l ∈ req.items, 0 ≤ l.quantity := by
  intro l hl
  unfold validPurchaseRequest at h
  simp only [Bool.and_eq_true] at h
  have := List.all_eq_true.mp h.1.2 l hl
  simp only [Bool.and_eq_true, decide_eq_true_eq] at this
  exact le_of_lt this.1.2

theorem createPurchase_StockInv (s : Store) (req : PurchaseRequest) (h : StockInv s) :
    StockInv (createPurchase s req).1 := by
  unfold createPurchase
  split
  · exact h
  · rename_i hv
    have hq : ∀ l ∈ req.items, 0 ≤ l.quantity := by
      apply validPurchaseRequest_quantity
      cases hvv : validPurchaseRequest req
      · rw [hvv] at hv; simp at hv
      · rfl
    split
    · exact h
    · split
      · exact h
      · rename_i s1 party hfoc
        have h1 : StockInv s1 := findOrCreateParty_StockInv hfoc h
        split
        · exact h1
        · rename_i s2 purchaseP hins
          have h2 : StockInv s2 := insertPurchase_StockInv hins (StockInv_bumpNextId h1)
          split
          · exact h2
          · rename_i s3 pty hbal
            exact StockInv_purchaseCreateBardana
              (StockInv_foldl_purchaseCreateStockStep (updateBalance_StockInv hbal h2) hq) hq

theorem purchaseUpdateBalanceStep_StockInv {s1 s2 : Store} {t0 : ℚ} {purchase : Purchase}
    (heq : purchaseUpdateBalanceStep s1 t0 purchase = .ok s2) (h : StockInv s1) :
    StockInv s2 := by
  unfold purchaseUpdateBalanceStep at heq
  split at heq
  · split at heq
    · split at heq
      · exact absurd heq (by simp)
      · rename_i tp hbal
        simp only [Except.ok.injEq] at heq
        rw [← heq]
        exact updateBalance_StockInv hbal h
    · simp only [Except.ok.injEq] at heq
      rw [← heq]
      exact h
  · simp only [Except.ok.injEq] at heq
    rw [← heq]
    exact h

theorem resavePurchase_ok_items_quantity {s t : Store} {purchase pr : Purchase}
    (heq : resavePurchase s purchase = (t, .ok pr)) :
    ∀ l ∈ purchase.items, 0 ≤ l.quantity := by
  unfold resavePurchase at heq
  split at heq
  · rename_i hv
    exact validTxnDoc_quantity hv
  · exact absurd heq (by simp)

theorem purchaseUpdateStockPass_StockInv {s2 : Store} {originalItems : List SaleItem}
    {reqItems : Option (List SaleItem)} (h : StockInv s2)
    (hq : ∀ its, reqItems = some its → ∀ l ∈ its, 0 ≤ l.quantity) :
    StockInv (purchaseUpdateStockPass s2 originalItems reqItems) := by
  unfold purchaseUpdateStockPass
  split
  · rename_i its
    split
    · exact StockInv_purchaseUpdateBardana _ _
        (StockInv_foldl_purchaseCreateStockStep
          (StockInv_foldl_purchaseReverseStockStep _ h) (hq its rfl))
    · exact h
  · exact h

theorem updatePurchase_StockInv (s : Store) (pid : Nat) (req : PurchaseUpdateRequest)
    (h : StockInv s) : StockInv (updatePurchase s pid req).1 := by
  unfold updatePurchase
  split
  · exact h
  · rename_i purchase0 hfind
    split
    · exact h
    · split
      · exact h
      · rename_i s1 purchase hres
        have h1 : StockInv s1 := resavePurchase_StockInv hres h
        have hq : ∀ its, req.items = some its → ∀ l ∈ its, 0 ≤ l.quantity := by
          intro its hits l hl
          apply resavePurchase_ok_items_quantity hres
          unfold purchaseWithUpdates
          simp [hits]
          exact hl
        split
        · exact h1
        · rename_i s2 hbal
          exact purchaseUpdateStockPass_StockInv
            (purchaseUpdateBalanceStep_StockInv hbal h1) hq

theorem purchaseDeleteBalanceStep_StockInv {s2 t : Store} {purchase : Purchase}
    {r : Except ApiError Unit}
    (heq : purchaseDeleteBalanceStep s2 purchase = (t, r)) (h : StockInv s2) :
    StockInv t := by
  unfold purchaseDeleteBalanceStep at heq
  split at heq
  · split at heq
    · simp only [Prod.mk.injEq] at heq
      rw [← heq.1]
      exact h
    · rename_i tp hbal
      simp only [Prod.mk.injEq] at heq
      rw [← heq.1]
      exact updateBalance_StockInv hbal h
  · simp only [Prod.mk.injEq] at heq
    rw [← heq.1]
    exact h

theorem purchaseDeleteEffects_StockInv {s t : Store} {purchase : Purchase}
    {r : Except ApiError Unit}
    (heq : purchaseDeleteEffects s purchase = (t, r)) (h : StockInv s) : StockInv t := by
  unfold purchaseDeleteEffects at heq
  exact purchaseDeleteBalanceStep_StockInv heq
    (StockInv_purchaseReverseBardana _ (StockInv_foldl_purchaseReverseStockStep _ h))

theorem deletePurchase_StockInv (s : Store) (pid : Nat) (h : StockInv s) :
    StockInv (deletePurchase s pid).1 := by
  unfold deletePurchase
  split
  · exact h
  · rename_i purchase hfind
    split
    · rename_i s1 e heff
      exact purchaseDeleteEffects_StockInv heff h
    · rename_i s1 u heff
      exact StockInv_filterPurchases _ (purchaseDeleteEffects_StockInv heff h)

theorem bulkDeleteLoop_StockInv (ps : List Purchase) (s : Store) (h : StockInv s) :
    StockInv (bulkDeleteLoop s ps).1 := by
  induction ps generalizing s with
  | nil => exact h
  | cons p rest ih =>
      unfold bulkDeleteLoop
      split
      · rename_i s1 u heff
        exact ih s1 (purchaseDeleteEffects_StockInv heff h)
      · rename_i s1 e heff
        exact purchaseDeleteEffects_StockInv heff h

theorem bulkDeletePurchases_StockInv (s : Store) (ids : List Nat) (h : StockInv s) :
    StockInv (bulkDeletePurchases s ids).1 := by
  unfold bulkDeletePurchases
  split
  · exact h
  · split
    · exact h
    · split
      · rename_i s1 e hloop
        have := bulkDeleteLoop_StockInv (s.purchases.filter (fun p => ids.contains p.id)) s h
        rw [hloop] at this
        exact this
      · rename_i s1 u hloop
        have := bulkDeleteLoop_StockInv (s.purchases.filter (fun p => ids.contains p.id)) s h
        rw [hloop] at this
        exact StockInv_filterPurchases _ this

end Billing

namespace Billing

theorem createItem_StockInv (s : Store) (req : ItemRequest) (h : StockInv s) :
    StockInv (createItem s req).1 := by
  unfold createItem
  split
  · exact h
  · rename_i hv
    split
    · exact h
    · have hs : 0 ≤ req.openingStock := by
        cases hvv : validItemRequest req
        · rw [hvv] at hv; simp at hv
        · unfold validItemRequest at hvv
          simp only [Bool.and_eq_true, decide_eq_true_eq] at hvv
          exact hvv.1.2
      refine ⟨?_, h.2⟩
      intro i hi
      rcases List.mem_append.mp hi with hold | hnew
      · exact h.1 i hold
      · rw [List.mem_singleton.mp hnew]
        exact hs

theorem updateItem_StockInv (s : Store) (iid : Nat) (req : ItemRequest) (h : StockInv s) :
    StockInv (updateItem s iid req).1 := by
  unfold updateItem
  split
  · exact h
  · rename_i hv
    have hs : 0 ≤ req.openingStock := by
      cases hvv : validItemRequest req
      · rw [hvv] at hv; simp at hv
      · unfold validItemRequest at hvv
        simp only [Bool.and_eq_true, decide_eq_true_eq] at hvv
        exact hvv.1.2
    split
    · exact h
    · split
      · exact h
      · exact StockInv_saveItem h hs

theorem deleteItem_StockInv (s : Store) (iid : Nat) (h : StockInv s) :
    StockInv (deleteItem s iid).1 := by
  unfold deleteItem
  split
  · exact h
  · split
    · exact h
    · exact StockInv_filterItems _ h

theorem updateBardanaStock_StockInv (s : Store) (operation : String) (quantity : ℚ)
    (h : StockInv s) : StockInv (updateBardanaStock s operation quantity).1 := by
  unfold updateBardanaStock
  split
  · exact h
  · split
    · exact h
    · rename_i b hfind
      split
      · exact h
      · rename_i hneg
        exact StockInv_saveItem h (le_of_not_lt hneg)

theorem updatePartyBalance_StockInv {s t : Store} {payment : Payment}
    (heq : updatePartyBalance s payment = .ok t) (h : StockInv s) : StockInv t := by
  unfold updatePartyBalance at heq
  split at heq
  · simp only [Except.ok.injEq] at heq
    rw [← heq]
    exact h
  · split at heq
    · exact absurd heq (by simp)
    · rename_i tp hbal
      simp only [Except.ok.injEq] at heq
      rw [← heq]
      exact updateBalance_StockInv hbal h

theorem createPaymentCore_StockInv (s1 : Store) (paymentNo : String) (req : PaymentRequest)
    (link : Option Nat) (h : StockInv s1) :
    StockInv (createPaymentCore s1 paymentNo req link).1 := by
  unfold createPaymentCore
  split
  · exact h
  · rename_i s2 payment hins
    have h2 : StockInv s2 := insertPayment_StockInv hins (StockInv_bumpNextId h)
    split
    · exact h2
    · split
      · exact h2
      · rename_i s3 hupb
        exact updatePartyBalance_StockInv hupb h2

theorem createPayment_StockInv (s : Store) (paymentNo : String) (req : PaymentRequest)
    (h : StockInv s) : StockInv (createPayment s paymentNo req).1 := by
  unfold createPayment
  split
  · exact h
  · split
    · rename_i s1 party hfoc
      exact createPaymentCore_StockInv _ _ _ _ (findOrCreateParty_StockInv hfoc h)
    · exact createPaymentCore_StockInv _ _ _ _ h

theorem paymentUpdateBalanceBlock_StockInv (s1 : Store) (opid : Option Nat) (a : ℚ)
    (payment : Payment) (h : StockInv s1) :
    StockInv (paymentUpdateBalanceBlock s1 opid a payment) := by
  unfold paymentUpdateBalanceBlock
  split
  · exact h
  · split
    · exact h
    · rename_i s2 tp hbal
      have h2 : StockInv s2 := updateBalance_StockInv hbal h
      split
      · exact h2
      · rename_i s3 hupb
        exact updatePartyBalance_StockInv hupb h2

theorem updatePayment_StockInv (s : Store) (pmid : Nat) (req : PaymentUpdateRequest)
    (h : StockInv s) : StockInv (updatePayment s pmid req).1 := by
  unfold updatePayment
  split
  · exact h
  · split
    · exact h
    · rename_i s1 payment hres
      have h1 : StockInv s1 := resavePayment_StockInv hres h
      split
      · exact paymentUpdateBalanceBlock_StockInv _ _ _ _ h1
      · exact h1

theorem paymentDeleteReversal_StockInv (s : Store) (payment : Payment) (h : StockInv s) :
    StockInv (paymentDeleteReversal s payment) := by
  unfold paymentDeleteReversal
  split
  · exact h
  · split
    · exact h
    · rename_i tp hbal
      exact updateBalance_StockInv hbal h

theorem deletePayment_StockInv (s : Store) (pmid : Nat) (h : StockInv s) :
    StockInv (deletePayment s pmid).1 := by
  unfold deletePayment
  split
  · exact h
  · rename_i payment hfind
    exact StockInv_filterPayments _ (paymentDeleteReversal_StockInv s payment h)

theorem patchPartyBalance_StockInv (s : Store) (pid : Nat) (amount : Option ℚ)
    (operation : String) (h : StockInv s) :
    StockInv (patchPartyBalance s pid amount operation).1 := by
  unfold patchPartyBalance
  split
  · exact h
  · split
    · exact h
    · split
      · exact h
      · split
        · exact h
        · rename_i tp hbal
          exact updateBalance_StockInv hbal h

theorem updateParty_StockInv (s : Store) (pid : Nat) (req : PartyUpdateRequest)
    (h : StockInv s) : StockInv (updateParty s pid req).1 := by
  unfold updateParty
  split
  · exact h
  · split
    · exact h
    · split
      · exact StockInv_saveParty h
      · exact h

theorem applyOp_StockInv (s : Store) (op : Op) (h : StockInv s) :
    StockInv (applyOp s op) := by
  cases op with
  | saleCreate req => exact createSale_StockInv s req h
  | saleUpdate sid req => exact updateSale_StockInv s sid req h
  | saleDelete sid => exact deleteSale_StockInv s sid h
  | purchaseCreate req => exact createPurchase_StockInv s req h
  | purchaseUpdate pid req => exact updatePurchase_StockInv s pid req h
  | purchaseDelete pid => exact deletePurchase_StockInv s pid h
  | purchaseBulkDelete ids => exact bulkDeletePurchases_StockInv s ids h
  | itemCreate req => exact createItem_StockInv s req h
  | itemUpdate iid req => exact updateItem_StockInv s iid req h
  | itemDelete iid => exact deleteItem_StockInv s iid h
  | bardanaStockUpdate operation quantity =>
      exact updateBardanaStock_StockInv s operation quantity h
  | paymentCreate paymentNo req => exact createPayment_StockInv s paymentNo req h
  | paymentUpdate pmid req => exact updatePayment_StockInv s pmid req h
  | paymentDelete pmid => exact deletePayment_StockInv s pmid h
  | partyBalancePatch pid amount operation =>
      exact patchPartyBalance_StockInv s pid amount operation h
  | partyUpdate pid req => exact updateParty_StockInv s pid req h

/-- **C7.** For every sequence of lifecycle operations (Sale/Purchase/Payment
create, update and delete, bulk purchase delete, item create/update/delete,
Bardana stock updates and Party balance routes), if every stored Item's
openingStock is nonnegative before the sequence — together with the
schema-guaranteed nonnegativity of every persisted Sale and Purchase line
quantity — then every Item's openingStock is nonnegative after it: each
decreasing stock adjustment clamps a would-be-negative result to 0. -/
theorem C7_stock_never_negative (s : Store) (ops : List Op) (hinv : StockInv s) :
    ∀ i ∈ (applyOps s ops).items, 0 ≤ i.openingStock := by
  have main : StockInv (applyOps s ops) := by
    unfold applyOps
    induction ops generalizing s with
    | nil => exact hinv
    | cons op rest ih => exact ih _ (applyOp_StockInv s op hinv)
  exact main.1

/-- Witness for C7: the canonical store with 5 bags of stock on each item
satisfies the invariant, and after a concrete item-delete operation the
surviving Bardana item still has nonnegative openingStock. -/
theorem C7_stock_never_negative_witness :
    (0:ℚ) ≤ (baseBardana 5).openingStock :=
  C7_stock_never_negative (baseStore 0 5 5) [Op.itemDelete 10]
    (by
      constructor
      · intro i hi
        simp only [baseStore, List.mem_cons, List.mem_singleton] at hi
        rcases hi with rfl | rfl | hi
        · norm_num [baseItem]
        · norm_num [baseBardana]
        · exact absurd hi (List.not_mem_nil i)
      · exact ⟨fun sa hsa => absurd hsa (List.not_mem_nil sa),
          fun p hp => absurd hp (List.not_mem_nil p)⟩)
    (baseBardana 5)
    (by simp [applyOps, applyOp, deleteItem, findItem, baseStore, baseItem, baseBardana])

end Billing
